import Mathlib

/-!
Verification of the MARKOV smart-contract audit core against its
natural-language specification.

The Python source (src/agent/python) is shallowly embedded here:
pure lexical scanners over `List Char` model the `re` patterns the
detectors use, detector `analyze` methods become total Lean functions
producing a `DetectorResult`, the coordinator's aggregation becomes a
function over `Except`-valued detector outcomes, and the reasoning
layer's arithmetic is carried out in `ℚ`.

Modelling conventions, fixed for the whole file:
- Python `str.split("\x7bnl\x7d")` is `splitLinesL`; every regex used by
  the source is hand-compiled to an equivalent executable scanner whose
  backtracking behaviour is analysed in a comment where it matters.
- Python exceptions: every fallible sub-operation of the detectors is
  guarded in the source (`try`/`except`, `.get` with defaults), so the
  embedded detectors are total functions; the one external fallible
  boundary (a detector task failing inside the coordinator's
  `asyncio.gather(…, return_exceptions=True)`) is modelled explicitly
  with `Except String DetectorResult`.
- The `metta_reasoning` entry the detectors attach to their result is
  the reply of the external MeTTa oracle, which the specification
  scopes out (sections 1 and 6: it "must never change the deterministic
  parts of the output"); it is omitted from `DetectorResult`.
- Floats: the source computes its scores on Python floats but every
  constant is a small decimal; the embedding uses exact `ℚ`.  The
  2-decimal display rounding `round(x, 2)` is modelled by `round2`
  where its argument is a 1-decimal value (so the rounding is exact and
  float/banker details cannot matter), and omitted (with a comment) on
  the one field where it is pure display formatting.
-/

namespace Markov

/-- Left brace character, kept out of string literals via its code. -/
def lbrace : Char := Char.ofNat 123

/-- Right brace character. -/
def rbrace : Char := Char.ofNat 125

/-- Python regex `\w`: letters, digits, underscore (ASCII inputs). -/
def isWordChar (c : Char) : Bool := c.isAlphanum || c = '_'

/-- Python regex `\s`: space, tab, newline, return, formfeed, vtab. -/
def isPySpace (c : Char) : Bool :=
  c = ' ' || c = '\t' || c = '\n' || c = '\r' || c = Char.ofNat 12 || c = Char.ofNat 11

/-- Lowercase a character sequence, as Python `str.lower` on ASCII. -/
def lowerAll (s : List Char) : List Char := s.map Char.toLower

/-- Does `c` occur in `l`?  (Python `c in line`.) -/
def memCh (c : Char) (l : List Char) : Bool := l.any (· = c)

/-- Number of occurrences of `c` in `l` (Python `line.count(c)`). -/
def countCh (c : Char) (l : List Char) : Nat := l.count c

/-- Python `source.split("\x7bnl\x7d")`: split on newline, keeping empty
pieces; the split of the empty string is `[[]]`. -/
def splitLinesL : List Char → List (List Char)
  | [] => [[]]
  | c :: rest =>
    if c = '\n' then [] :: splitLinesL rest
    else
      match splitLinesL rest with
      | l :: ls => (c :: l) :: ls
      | [] => [[c]]

/-- Python `"\x7bnl\x7d".join(lines)`. -/
def joinNL (ls : List (List Char)) : List Char := List.intercalate ['\n'] ls

/-- Python `str.strip()` (ASCII whitespace). -/
def stripL (l : List Char) : List Char :=
  ((l.dropWhile isPySpace).reverse.dropWhile isPySpace).reverse

/-- Substring containment, `pat in s` / `re.search` on a literal. -/
def containsSub (pat : List Char) : List Char → Bool
  | [] => pat.isEmpty
  | c :: rest => pat.isPrefixOf (c :: rest) || containsSub pat rest

/-- Run a match-at-position predicate at every suffix, as `re.search`
tries every start position left to right. -/
def searchAny (p : List Char → Bool) : List Char → Bool
  | [] => p []
  | c :: rest => p (c :: rest) || searchAny p rest

/-- Like `searchAny` but the matcher also sees the previous character,
for patterns anchored with a leading `\b`. -/
def searchPrev (p : Option Char → List Char → Bool) : Option Char → List Char → Bool
  | prev, [] => p prev []
  | prev, c :: rest => p prev (c :: rest) || searchPrev p (some c) rest

/-- Consume a literal (regex-escaped) string, or fail. -/
def eatStr (pat : String) (s : List Char) : Option (List Char) :=
  if pat.toList.isPrefixOf s then some (s.drop pat.toList.length) else none

/-- Consume one literal character. -/
def eatChar (c : Char) : List Char → Option (List Char)
  | d :: rest => if d = c then some rest else none
  | [] => none

/-- Regex `\s+`: at least one whitespace character, greedily. -/
def eatWs1 : List Char → Option (List Char)
  | c :: rest => if isPySpace c then some (rest.dropWhile isPySpace) else none
  | [] => none

/-- Regex `\s*`. -/
def eatWs0 (s : List Char) : List Char := s.dropWhile isPySpace

/-- Regex `\w+`, greedy; returns the word and the rest.  Everywhere this
is used the next regex atom cannot match a word character, so the greedy
maximal run is the only candidate and no backtracking is needed. -/
def eatWord1 (s : List Char) : Option (List Char × List Char) :=
  let w := s.takeWhile isWordChar
  if w.isEmpty then none else some (w, s.dropWhile isWordChar)

/-- Regex `\w*pat` with backtracking: either `pat` matches here, or we
consume one word character and retry. -/
def wordThen (pat : List Char) : List Char → Bool
  | [] => pat.isPrefixOf []
  | c :: rest => pat.isPrefixOf (c :: rest) || (isWordChar c && wordThen pat rest)

/-- Regex `.*pat` (dot does not match newline) with backtracking. -/
def dotStarThen (pat : List Char) : List Char → Bool
  | [] => pat.isPrefixOf []
  | c :: rest => pat.isPrefixOf (c :: rest) || (c ≠ '\n' && dotStarThen pat rest)

/-- Maximal word-character runs of a line, in order; used to model
`re.findall` over word tokens. -/
def wordRunsGo : List Char → List Char → List (List Char)
  | [], cur => if cur.isEmpty then [] else [cur.reverse]
  | c :: rest, cur =>
    if isWordChar c then wordRunsGo rest (c :: cur)
    else if cur.isEmpty then wordRunsGo rest []
    else cur.reverse :: wordRunsGo rest []

/-- All maximal word runs of a line. -/
def wordRuns (l : List Char) : List (List Char) := wordRunsGo l []

/-- Parse a decimal numeral as Python `int` does on a digit string;
`none` models the `ValueError` raised on a non-numeral (the callers
wrap this in `try`/`except`). -/
def parseNatL (l : List Char) : Option Nat :=
  if l.isEmpty || l.any (fun c => !c.isDigit) then none
  else some (l.foldl (fun n c => n * 10 + (c.toNat - 48)) 0)

/-- Split on a separator character (Python `str.split(sep)`). -/
def splitOnCh (sep : Char) : List Char → List (List Char)
  | [] => [[]]
  | c :: rest =>
    if c = sep then [] :: splitOnCh sep rest
    else
      match splitOnCh sep rest with
      | l :: ls => (c :: l) :: ls
      | [] => [[c]]

/-- Non-overlapping left-to-right rewriting, as `re.sub` / `str.replace`:
`matchAt` yields the replacement text and the remainder after the match.
Fuel equals the input length; every matcher used consumes at least one
character, so the fuel never runs out before the scan completes. -/
def reSubGo (matchAt : List Char → Option (List Char × List Char)) :
    Nat → List Char → List Char
  | 0, s => s
  | _ + 1, [] => []
  | f + 1, c :: rest =>
    match matchAt (c :: rest) with
    | some (repl, after) => repl ++ reSubGo matchAt f after
    | none => c :: reSubGo matchAt f rest

/-- Apply `reSubGo` with fuel the length of the input. -/
def reSub (matchAt : List Char → Option (List Char × List Char))
    (s : List Char) : List Char :=
  reSubGo matchAt s.length s

/-- Python `str.replace(pat, repl)` (replace every occurrence), for a
nonempty pattern. -/
def replaceSub (pat repl : List Char) (s : List Char) : List Char :=
  reSub (fun t => if pat.isPrefixOf t && !pat.isEmpty
                  then some (repl, t.drop pat.length) else none) s

/-- A slice `lines[a:b]` of a line list. -/
def sliceLines (lines : List (List Char)) (a b : Nat) : List (List Char) :=
  (lines.drop a).take (b - a)

/-- `lines[i]` with the out-of-range default never reached by the
sources' loops (they index inside `range(len(lines))`). -/
def lineAt (lines : List (List Char)) (i : Nat) : List Char := lines.getD i []

end Markov

namespace Markov

/-- One reported issue: the dict a detector appends to
`findings["issues"]`. -/
structure Issue where
  severity : String
  title : String
  description : String
  location : String
  recommendation : String
  deriving Repr, DecidableEq

/-- One suggested fix: the dict a detector appends to
`findings["code_fixes"]`. -/
structure CodeFix where
  issue : String
  original : String
  fixed : String
  explanation : String
  deriving Repr, DecidableEq

/-- A detector's result: the `findings` dict each agent's `analyze`
returns.  `checks` is the insertion-ordered check-name → bool mapping.
(The external MeTTa oracle reply `metta_reasoning` is omitted, see the
file header.) -/
structure DetectorResult where
  checks : List (String × Bool)
  issues : List Issue
  code_fixes : List CodeFix
  deriving Repr, DecidableEq

end Markov

namespace Markov.ReentrancyAgent

/-- Regex `ReentrancyGuard|nonReentrant` over the whole source. -/
def has_reentrancy_guard (src : List Char) : Bool :=
  containsSub "ReentrancyGuard".toList src || containsSub "nonReentrant".toList src

/-- Regex `\.call\x7b|\.transfer\(|\.send\(` on one line (the same
three literals in both places the agent scans for external calls). -/
def external_call_line (l : List Char) : Bool :=
  containsSub (".call".toList ++ [lbrace]) l ||
  containsSub ".transfer(".toList l || containsSub ".send(".toList l

/-- Regex `(\w+)\s*=\s*` searched in a line.  A match needs at least one
word character, then optional whitespace, then a literal equals sign; the
trailing `\s*` always matches.  Backtracking cannot help a shortened word
run (the character after a shortened run is a word character, which is
neither whitespace nor an equals sign), so the maximal run is the only
candidate at each start position. -/
def assignAt : List Char → Bool
  | c :: rest =>
    isWordChar c &&
      (match (rest.dropWhile isWordChar).dropWhile isPySpace with
       | '=' :: _ => true
       | _ => false)
  | [] => false

/-- Search form of `assignAt`. -/
def has_assign (l : List Char) : Bool := searchAny assignAt l

/-- Regex `balance|amount|shares|deposit` with `re.IGNORECASE`. -/
def balance_keyword (l : List Char) : Bool :=
  let low := lowerAll l
  containsSub "balance".toList low || containsSub "amount".toList low ||
  containsSub "shares".toList low || containsSub "deposit".toList low

/-- Regex `function\s+(\w+)` matched at one position, returning the
captured name. -/
def funcNameAt (s : List Char) : Option (List Char) :=
  (eatStr "function" s).bind fun r =>
    (eatWs1 r).bind fun r2 =>
      (eatWord1 r2).map Prod.fst

/-- Leftmost `function\s+(\w+)` match in a line (`re.search`). -/
def findFuncName : List Char → Option (List Char)
  | [] => none
  | c :: rest =>
    match funcNameAt (c :: rest) with
    | some w => some w
    | none => findFuncName rest

/-- `_extract_function_name`: scan from `lineNumber` down to line 0 for
the first function header, else `"unknown"`. -/
def extract_function_name (lines : List (List Char)) : Nat → String
  | 0 =>
    match findFuncName (lineAt lines 0) with
    | some w => String.mk w
    | none => "unknown"
  | i + 1 =>
    match findFuncName (lineAt lines (i + 1)) with
    | some w => String.mk w
    | none => extract_function_name lines i

/-- A vulnerable pattern record collected by
`_find_vulnerable_patterns`. -/
structure VulnPattern where
  function : String
  line : Nat
  code : String
  deriving Repr, DecidableEq

/-- `_find_vulnerable_patterns`: at each external-call line `i`, the
first line `j` in `range(i+1, min(i+5, len(lines)))` that matches both
the assignment regex and the balance-keyword regex yields one record
(the inner loop breaks after appending). -/
def find_vulnerable_patterns (lines : List (List Char)) : List VulnPattern :=
  (List.range lines.length).filterMap fun i =>
    if external_call_line (lineAt lines i) then
      match (List.range' (i + 1) (min (i + 5) lines.length - (i + 1))).find?
          (fun j => has_assign (lineAt lines j) && balance_keyword (lineAt lines j)) with
      | some j =>
        some { function := extract_function_name lines i
               line := i + 1
               code := String.mk (joinNL (sliceLines lines (i - 2) (min lines.length (j + 2)))) }
      | none => none
    else none

/-- `_check_cei_pattern`: true when some external-call line is preceded
within 5 lines by an assignment. -/
def check_cei_pattern (lines : List (List Char)) : Bool :=
  (List.range lines.length).any fun i =>
    external_call_line (lineAt lines i) &&
      (List.range' (i - 5) (i - (i - 5))).any fun j => has_assign (lineAt lines j)

/-- Regex `function\s+withdraw\s*\(` at one position. -/
def funcWithdrawAt (s : List Char) : Bool :=
  ((eatStr "function" s).bind fun r =>
    (eatWs1 r).bind fun r2 =>
      (eatStr "withdraw" r2).bind fun r3 =>
        eatChar '(' (eatWs0 r3)).isSome

/-- Regex `mapping\s*\([^)]+\)\s*\w*balance` at one position: after the
parenthesis the `[^)]+` group must be nonempty and ends at the first
closing parenthesis. -/
def mappingBalanceAt (pat : List Char) (s : List Char) : Bool :=
  match (eatStr "mapping" s).map eatWs0 with
  | some r =>
    (match eatChar '(' r with
     | some r2 =>
       let inner := r2.takeWhile (· ≠ ')')
       if inner.isEmpty then false
       else
         match eatChar ')' (r2.dropWhile (· ≠ ')')) with
         | some r3 => wordThen pat (eatWs0 r3)
         | none => false
     | none => false)
  | none => false

/-- `_check_pull_pattern` of the reentrancy agent. -/
def check_pull_pattern (src : List Char) : Bool :=
  searchAny funcWithdrawAt src ||
  searchAny (mappingBalanceAt "balance".toList) src ||
  containsSub "pendingWithdrawals".toList src

/-- The issue generated for one vulnerable pattern. -/
def mkIssue (p : VulnPattern) : Issue :=
  { severity := "high"
    title := "Reentrancy Vulnerability Detected"
    description := "Function '" ++ p.function ++ "' performs external call at line "
      ++ toString p.line ++ " followed by state changes. This allows attackers to reenter and drain funds."
    location := "Line " ++ toString p.line
    recommendation := "1. Implement ReentrancyGuard from OpenZeppelin\n2. Follow checks-effects-interactions pattern\n3. Update state before external calls" }

/-- `_generate_fixed_code`: rename-in-place of the function header, then
the simplified checks-effects-interactions reorder note.  The Python
`if call_line and state_lines:` tests integer truthiness, so a call on
the block's first collected line (index 0) suppresses the note; the
embedding keeps that behaviour. -/
def generate_fixed_code (p : VulnPattern) : String :=
  let fixedL := reSub
    (fun t =>
      ((eatStr "function" t).bind fun r =>
        (eatWs1 r).bind fun r2 =>
          (eatStr p.function r2).bind fun r3 =>
            eatChar '(' (eatWs0 r3)).map
        (fun r4 => (("function " ++ p.function ++ "() nonReentrant (").toList, r4)))
    p.code.toList
  let lines := splitLinesL fixedL
  let callLine := (List.range lines.length).foldl
    (fun acc i =>
      if containsSub (".call".toList ++ [lbrace]) (lineAt lines i) ||
         containsSub ".transfer(".toList (lineAt lines i) then some i else acc)
    none
  let stateLines := (List.range lines.length).filter fun i =>
    memCh '=' (lineAt lines i) && containsSub "balance".toList (lowerAll (lineAt lines i))
  let truthyCall := match callLine with
    | some n => n ≠ 0
    | none => false
  if truthyCall && !stateLines.isEmpty then
    String.mk fixedL ++ "\n// TODO: Reorder state changes before external call"
  else String.mk fixedL

/-- The code fix generated for one vulnerable pattern. -/
def mkFix (p : VulnPattern) : CodeFix :=
  { issue := "Missing ReentrancyGuard"
    original := p.code
    fixed := generate_fixed_code p
    explanation := "Added nonReentrant modifier to prevent reentrant calls. Also reordered code to follow CEI pattern." }

/-- `ReentrancyAgent.analyze` (the pure detection part; the agent's
network scaffolding and the external MeTTa query are out of scope). -/
def analyze (src : String) : DetectorResult :=
  let s := src.toList
  let lines := splitLinesL s
  let hasGuard := has_reentrancy_guard s
  let followsCei := check_cei_pattern lines
  let vulnPatterns := find_vulnerable_patterns lines
  let usesPull := check_pull_pattern s
  { checks := [("reentrancy_guard_present", hasGuard),
               ("checks_effects_interactions", followsCei),
               ("no_state_after_call", vulnPatterns.length = 0),
               ("uses_pull_payment", usesPull)]
    issues := if !hasGuard && !vulnPatterns.isEmpty then vulnPatterns.map mkIssue else []
    code_fixes := if !hasGuard && !vulnPatterns.isEmpty then vulnPatterns.map mkFix else [] }

end Markov.ReentrancyAgent

namespace Markov.AccessControlAgent

/-- Regex `Ownable|onlyOwner`. -/
def has_ownable (src : List Char) : Bool :=
  containsSub "Ownable".toList src || containsSub "onlyOwner".toList src

/-- Regex `AccessControl|hasRole`. -/
def has_access_control (src : List Char) : Bool :=
  containsSub "AccessControl".toList src || containsSub "hasRole".toList src

/-- Regex `tx\.origin`. -/
def uses_tx_origin (src : List Char) : Bool := containsSub "tx.origin".toList src

/-- The privileged-keyword table of
`_find_unprotected_privileged_functions`: keyword, action text,
severity class. -/
def privileged_keywords : List (String × String × String) :=
  [("withdraw", "withdraw funds", "critical"),
   ("transferOwnership", "transfer ownership", "critical"),
   ("pause", "pause contract", "critical"),
   ("unpause", "unpause contract", "critical"),
   ("setFee", "set fees", "medium"),
   ("mint", "mint tokens", "critical"),
   ("burn", "burn tokens", "medium"),
   ("setAdmin", "change admin", "critical"),
   ("emergencyWithdraw", "emergency withdraw", "critical")]

/-- Regex `function\s+KEYWORD` with `re.IGNORECASE`, searched in a
line: both the line and the keyword are lowercased. -/
def funcKeywordSearch (kw : String) (l : List Char) : Bool :=
  searchAny
    (fun s =>
      ((eatStr "function" s).bind fun r =>
        (eatWs1 r).bind fun r2 =>
          eatStr (String.mk (lowerAll kw.toList)) r2).isSome)
    (lowerAll l)

/-- Regex `onlyOwner|onlyRole|onlyAdmin` on one line (case-sensitive). -/
def modifier_line (l : List Char) : Bool :=
  containsSub "onlyOwner".toList l || containsSub "onlyRole".toList l ||
  containsSub "onlyAdmin".toList l

/-- The modifier lookahead window of the source: lines
`range(i, min(i + 3, len(lines)))`. -/
def has_modifier_window (lines : List (List Char)) (i : Nat) : Bool :=
  (List.range' i (min (i + 3) lines.length - i)).any fun j =>
    modifier_line (lineAt lines j)

/-- `_extract_function`: collect up to 50 lines; once a brace has been
seen, stop at the first line whose cumulative brace count returns to
zero.  The count is an integer: it may go negative without triggering
the stop test. -/
def extract_function_go : List (List Char) → Int → Bool → List (List Char)
  | [], _, _ => []
  | l :: rest, brace, started =>
    let started' := started || memCh lbrace l
    let brace1 := if memCh lbrace l then brace + (countCh lbrace l : Int) else brace
    let brace2 := if started' then brace1 - (countCh rbrace l : Int) else brace1
    l :: (if started' && brace2 = 0 then [] else extract_function_go rest brace2 started')

/-- `_extract_function` on a line list from a start index. -/
def extract_function (lines : List (List Char)) (start : Nat) : String :=
  String.mk (joinNL (extract_function_go ((lines.drop start).take 50) 0 false))

/-- An unprotected-function record of
`_find_unprotected_privileged_functions`. -/
structure UnprotectedFunc where
  name : String
  action : String
  ftype : String
  line : Nat
  code : String
  deriving Repr, DecidableEq

/-- `_find_unprotected_privileged_functions`: every (line, keyword) pair
whose line matches the function regex and whose lookahead window has no
authorization modifier yields one record, lines outer, keywords inner. -/
def find_unprotected_privileged_functions (lines : List (List Char)) :
    List UnprotectedFunc :=
  (List.range lines.length).flatMap fun i =>
    privileged_keywords.filterMap fun t =>
      if funcKeywordSearch t.1 (lineAt lines i) && !has_modifier_window lines i then
        some { name := t.1, action := t.2.1, ftype := t.2.2, line := i + 1,
               code := extract_function lines i }
      else none

/-- Regex `modifier\s+(onlyOwner|onlyAdmin|onlyRole)`. -/
def modifierDefSearch (src : List Char) : Bool :=
  searchAny
    (fun s =>
      ((eatStr "modifier" s).bind fun r =>
        (eatWs1 r).bind fun r2 =>
          match eatStr "onlyOwner" r2 with
          | some r3 => some r3
          | none =>
            match eatStr "onlyAdmin" r2 with
            | some r3 => some r3
            | none => eatStr "onlyRole" r2).isSome)
    src

/-- Regex `import.*Ownable|import.*AccessControl` (dot excludes
newlines). -/
def ozImportSearch (src : List Char) : Bool :=
  searchAny
    (fun s =>
      match eatStr "import" s with
      | some r => dotStarThen "Ownable".toList r || dotStarThen "AccessControl".toList r
      | none => false)
    src

/-- `_check_modifier_usage`. -/
def check_modifier_usage (src : List Char) : Bool :=
  modifierDefSearch src || ozImportSearch src

/-- `_add_access_modifier`: rewrite `function NAME(...) public|external`
headers to carry `onlyOwner`, then prepend the import when missing. -/
def add_access_modifier (code : String) (name : String) : String :=
  let fixedL := reSub
    (fun t =>
      (((eatStr "function" t).bind fun r =>
        (eatWs1 r).bind fun r2 =>
          (eatStr name r2).bind fun r3 =>
            (eatChar '(' (eatWs0 r3)).bind fun r4 =>
              let r5 := r4.dropWhile (· ≠ ')')
              (eatChar ')' r5).bind fun r6 =>
                (eatWs1 r6).bind fun r7 =>
                  match eatStr "public" r7 with
                  | some r8 => some r8
                  | none => eatStr "external" r7).map
        fun r8 => (t.take (t.length - r8.length) ++ " onlyOwner".toList, r8)))
    code.toList
  if containsSub "import".toList fixedL then String.mk fixedL
  else "import \"@openzeppelin/contracts/access/Ownable.sol\";\n\n" ++ String.mk fixedL

/-- The issue generated for one unprotected function. -/
def mkIssue (f : UnprotectedFunc) : Issue :=
  { severity := if f.ftype = "critical" then "high" else "medium"
    title := "Unprotected Privileged Function: " ++ f.name
    description := "Function '" ++ f.name ++ "' can " ++ f.action ++
      " but lacks access control modifiers. Any user can call this function."
    location := "Line " ++ toString f.line
    recommendation := "Add onlyOwner or role-based access modifier" }

/-- The code fix generated for one unprotected function. -/
def mkFix (f : UnprotectedFunc) : CodeFix :=
  { issue := "Missing access control on " ++ f.name
    original := f.code
    fixed := add_access_modifier f.code f.name
    explanation := "Added onlyOwner modifier to restrict access to contract owner" }

/-- The issue emitted when `tx.origin` occurs. -/
def txOriginIssue : Issue :=
  { severity := "high"
    title := "Dangerous use of tx.origin"
    description := "Contract uses tx.origin for authorization, which is vulnerable to phishing attacks. Use msg.sender instead."
    location := "Multiple locations"
    recommendation := "Replace tx.origin with msg.sender" }

/-- `AccessControlAgent.analyze` (pure detection part). -/
def analyze (src : String) : DetectorResult :=
  let s := src.toList
  let lines := splitLinesL s
  let hasOwnable := has_ownable s
  let hasRoles := has_access_control s
  let unprotected := find_unprotected_privileged_functions lines
  let properModifiers := check_modifier_usage s
  let txOrigin := uses_tx_origin s
  { checks := [("has_ownership_mechanism", hasOwnable),
               ("has_role_based_access", hasRoles),
               ("all_privileged_protected", unprotected.length = 0),
               ("proper_modifier_usage", properModifiers),
               ("no_tx_origin", !txOrigin)]
    issues := unprotected.map mkIssue ++ (if txOrigin then [txOriginIssue] else [])
    code_fixes := unprotected.map mkFix }

end Markov.AccessControlAgent

namespace Markov.IntegerOverflowAgent

/-- Regex `pragma solidity\s+[\^~><=]*([0-9.]+)` matched at one
position, returning the captured version numeral.  The operator class
and the numeral class are disjoint, so both greedy runs are forced. -/
def versionAt (s : List Char) : Option (List Char) :=
  (eatStr "pragma solidity" s).bind fun r =>
    (eatWs1 r).bind fun r2 =>
      let r3 := r2.dropWhile (fun c => c = '^' || c = '~' || c = '>' || c = '<' || c = '=')
      let v := r3.takeWhile (fun c => c.isDigit || c = '.')
      if v.isEmpty then none else some v

/-- `_extract_solidity_version`: leftmost pragma match, else
`"unknown"`. -/
def extract_solidity_version : List Char → List Char
  | [] => "unknown".toList
  | c :: rest =>
    match versionAt (c :: rest) with
    | some v => v
    | none => extract_solidity_version rest

/-- `_check_safe_version`: split the numeral on dots, parse major and
minor; a parse failure is the caught `ValueError` and yields `false`. -/
def check_safe_version (v : List Char) : Bool :=
  if v = "unknown".toList then false
  else
    match splitOnCh '.' v with
    | [] => false
    | p0 :: rest =>
      match parseNatL p0 with
      | none => false
      | some major =>
        match rest with
        | [] => major > 0
        | p1 :: _ =>
          match parseNatL p1 with
          | none => false
          | some minor => major > 0 || (major = 0 && minor ≥ 8)

/-- Regex `using SafeMath|SafeMath\.(add|sub|mul|div)`. -/
def uses_safe_math (src : List Char) : Bool :=
  containsSub "using SafeMath".toList src ||
  searchAny
    (fun s =>
      ((eatStr "SafeMath." s).bind fun r =>
        match eatStr "add" r with
        | some r2 => some r2
        | none =>
          match eatStr "sub" r with
          | some r2 => some r2
          | none =>
            match eatStr "mul" r with
            | some r2 => some r2
            | none => eatStr "div" r).isSome)
    src

/-- `_extract_block`: collect up to 20 lines, tracking the brace count
as an integer; stop only at a line whose cumulative count is zero AND
which itself contains an opening brace. -/
def extract_block_go : List (List Char) → Int → List (List Char)
  | [], _ => []
  | l :: rest, brace =>
    let brace' := brace + (countCh lbrace l : Int) - (countCh rbrace l : Int)
    l :: (if brace' = 0 && memCh lbrace l then [] else extract_block_go rest brace')

/-- `_extract_block` on a line list from a start index. -/
def extract_block (lines : List (List Char)) (start : Nat) : String :=
  String.mk (joinNL (extract_block_go ((lines.drop start).take 20) 0))

/-- Regex `\bunchecked\s*\x7b` matched at one position given the
previous character (for the leading word boundary). -/
def uncheckedAt (prev : Option Char) (s : List Char) : Bool :=
  (match prev with
   | none => true
   | some c => !isWordChar c) &&
  (match (eatStr "unchecked" s).map eatWs0 with
   | some (c :: _) => c = lbrace
   | _ => false)

/-- An unchecked-block record of `_find_unchecked_blocks`. -/
structure UncheckedBlock where
  line : Nat
  code : String
  deriving Repr, DecidableEq

/-- `_find_unchecked_blocks`. -/
def find_unchecked_blocks (lines : List (List Char)) : List UncheckedBlock :=
  (List.range lines.length).filterMap fun i =>
    if searchPrev uncheckedAt none (lineAt lines i) then
      some { line := i + 1, code := extract_block lines i }
    else none

/-- Is the character one of the arithmetic operators `[+\-*/]`? -/
def isArithOp (c : Char) : Bool := c = '+' || c = '-' || c = '*' || c = '/'

/-- Regex `[+\-*/]\s*=|=\s*\w+\s*[+\-*/]` at one position. -/
def arithOpAt (s : List Char) : Bool :=
  (match s with
   | c :: rest => isArithOp c && (match eatWs0 rest with
     | '=' :: _ => true
     | _ => false)
   | [] => false) ||
  (match s with
   | '=' :: rest =>
     (match eatWord1 (eatWs0 rest) with
      | some (_, r2) =>
        (match eatWs0 r2 with
         | c :: _ => isArithOp c
         | [] => false)
      | none => false)
   | _ => false)

/-- `_extract_operator`: first operator of the fixed candidate list
that occurs anywhere in the line. -/
def extract_operator (l : List Char) : String :=
  if memCh '+' l then "+"
  else if memCh '-' l then "-"
  else if memCh '*' l then "*"
  else if memCh '/' l then "/"
  else if memCh '%' l then "%"
  else "unknown"

/-- An arithmetic-operation record of `_find_arithmetic_operations`. -/
structure ArithOp where
  line : Nat
  code : String
  operator : String
  deriving Repr, DecidableEq

/-- `_find_arithmetic_operations`: skip comment- or quote-bearing lines
and `SafeMath` lines, record the rest that match the operator regex. -/
def find_arithmetic_operations (lines : List (List Char)) : List ArithOp :=
  (List.range lines.length).filterMap fun i =>
    let l := lineAt lines i
    if containsSub "//".toList l || containsSub "/*".toList l || memCh '"' l then none
    else if searchAny arithOpAt l then
      if containsSub "SafeMath".toList l then none
      else some { line := i + 1, code := String.mk (stripL l),
                  operator := extract_operator l }
    else none

/-- Regex `\w+\s*/\s*\w+\s*\*\s*\w+` at one position. -/
def precisionLossAt (s : List Char) : Bool :=
  ((eatWord1 s).bind fun p1 =>
    (eatChar '/' (eatWs0 p1.2)).bind fun r2 =>
      (eatWord1 (eatWs0 r2)).bind fun p3 =>
        (eatChar '*' (eatWs0 p3.2)).bind fun r4 =>
          eatWord1 (eatWs0 r4)).isSome

/-- A precision-loss record of `_check_precision_loss`. -/
structure PrecisionLoss where
  line : Nat
  code : String
  deriving Repr, DecidableEq

/-- `_check_precision_loss`. -/
def check_precision_loss (lines : List (List Char)) : List PrecisionLoss :=
  (List.range lines.length).filterMap fun i =>
    if searchAny precisionLossAt (lineAt lines i) then
      some { line := i + 1, code := String.mk (stripL (lineAt lines i)) }
    else none

/-- Regex `i\s*\+\s*1` at one position. -/
def loopCounterAt (s : List Char) : Bool :=
  (match s with
   | 'i' :: rest =>
     (match eatChar '+' (eatWs0 rest) with
      | some r2 =>
        (match eatChar '1' (eatWs0 r2) with
         | some _ => true
         | none => false)
      | none => false)
   | _ => false)

/-- `_is_safe_unchecked_usage` on a block's (lowercased) code: a safe
pattern must occur and no unsafe pattern may occur. -/
def is_safe_unchecked_usage (b : UncheckedBlock) : Bool :=
  let code := lowerAll b.code.toList
  let hasSafe := containsSub "++".toList code || containsSub "--".toList code ||
    searchAny loopCounterAt code
  let hasRiskyMarker := containsSub "msg.value".toList code || containsSub "amount".toList code ||
    containsSub "balance".toList code || memCh '*' code ||
    containsSub "user".toList code || containsSub "input".toList code
  hasSafe && !hasRiskyMarker

/-- `_add_safemath`: prepend the using-directive, then rewrite the four
binary operator patterns to SafeMath calls in sequence. -/
def add_safemath (code : String) : String :=
  let subOp (op : Char) (meth : String) (s : List Char) : List Char :=
    reSub
      (fun t =>
        ((eatWord1 t).bind fun p1 =>
          (eatChar op (eatWs0 p1.2)).bind fun r2 =>
            (eatWord1 (eatWs0 r2)).map fun p3 =>
              (p1.1 ++ (".".toList ++ meth.toList ++ "(".toList) ++ p3.1 ++ ")".toList, p3.2)))
      s
  let s0 := ("using SafeMath for uint256;\n\n" ++ code).toList
  String.mk (subOp '/' "div" (subOp '*' "mul" (subOp '-' "sub" (subOp '+' "add" s0))))

/-- The issue generated for one risky arithmetic operation. -/
def mkArithIssue (version : List Char) (op : ArithOp) : Issue :=
  { severity := "high"
    title := "Integer Overflow/Underflow Risk"
    description := "Arithmetic operation at line " ++ toString op.line ++
      " is vulnerable to integer overflow/underflow. Contract uses Solidity " ++
      String.mk version ++ " without SafeMath protection."
    location := "Line " ++ toString op.line
    recommendation := "1. Upgrade to Solidity 0.8.0+ for built-in protection\n2. Or use SafeMath library for all arithmetic operations" }

/-- The issue generated for one risky unchecked block. -/
def mkUncheckedIssue (b : UncheckedBlock) : Issue :=
  { severity := "medium"
    title := "Potentially Unsafe Unchecked Block"
    description := "Unchecked block at line " ++ toString b.line ++
      " may contain operations that could overflow without protection. Verify this is intentional."
    location := "Line " ++ toString b.line
    recommendation := "Review unchecked blocks for overflow safety" }

/-- The issue generated for one precision-loss line. -/
def mkPrecisionIssue (p : PrecisionLoss) : Issue :=
  { severity := "medium"
    title := "Precision Loss: Division Before Multiplication"
    description := "Operation at line " ++ toString p.line ++
      " performs division before multiplication, which can lead to precision loss in integer arithmetic."
    location := "Line " ++ toString p.line
    recommendation := "Reorder operations: multiply first, then divide" }

/-- `IntegerOverflowAgent.analyze` (pure detection part). -/
def analyze (src : String) : DetectorResult :=
  let s := src.toList
  let lines := splitLinesL s
  let version := extract_solidity_version s
  let isSafeVersion := check_safe_version version
  let usesSafeMath := uses_safe_math s
  let uncheckedBlocks := find_unchecked_blocks lines
  let arithmeticOps := find_arithmetic_operations lines
  let precisionLoss := check_precision_loss lines
  let arithIssues :=
    if !isSafeVersion && !usesSafeMath && !arithmeticOps.isEmpty then
      (arithmeticOps.take 3).map (mkArithIssue version)
    else []
  let arithFixes :=
    if !isSafeVersion && !usesSafeMath && !arithmeticOps.isEmpty then
      [{ issue := "Missing overflow protection"
         original := "pragma solidity ^" ++ String.mk version ++ ";"
         fixed := "pragma solidity ^0.8.20;"
         explanation := "Solidity 0.8.0+ has built-in overflow/underflow protection" : CodeFix }] ++
      (if !usesSafeMath && !arithmeticOps.isEmpty then
        [{ issue := "Add SafeMath library"
           original := (arithmeticOps.headD ⟨0, "", ""⟩).code
           fixed := add_safemath (arithmeticOps.headD ⟨0, "", ""⟩).code
           explanation := "Use SafeMath library for safe arithmetic operations" : CodeFix }]
       else [])
    else []
  let uncheckedIssues :=
    if !uncheckedBlocks.isEmpty && isSafeVersion then
      (uncheckedBlocks.filter (fun b => !is_safe_unchecked_usage b)).map mkUncheckedIssue
    else []
  { checks := [("solidity_version_safe", isSafeVersion),
               ("uses_safe_math", usesSafeMath),
               ("appropriate_unchecked_usage", uncheckedBlocks.length = 0 || isSafeVersion),
               ("arithmetic_operations_safe", isSafeVersion || usesSafeMath),
               ("no_precision_loss", precisionLoss.length = 0)]
    issues := arithIssues ++ uncheckedIssues ++ precisionLoss.map mkPrecisionIssue
    code_fixes := arithFixes }

end Markov.IntegerOverflowAgent

namespace Markov.ExternalCallsAgent

/-- Regex `\.call\(|\.call\x7b` on one line. -/
def low_level_call_line (l : List Char) : Bool :=
  containsSub ".call(".toList l || containsSub (".call".toList ++ [lbrace]) l

/-- One of the return-check regexes `require\s*\(`, `assert\s*\(`,
`if\s*\(`, `\(bool\s+\w+` searched in a line. -/
def check_pattern_line (l : List Char) : Bool :=
  let kwParen (kw : String) : Bool :=
    searchAny
      (fun s => ((eatStr kw s).bind fun r => eatChar '(' (eatWs0 r)).isSome) l
  kwParen "require" || kwParen "assert" || kwParen "if" ||
  searchAny
    (fun s =>
      ((eatChar '(' s).bind fun r =>
        (eatStr "bool" r).bind fun r2 =>
          (eatWs1 r2).bind fun r3 =>
            eatWord1 r3).isSome) l

/-- `_is_return_checked`: the call line itself or the following two
lines. -/
def is_return_checked (lines : List (List Char)) (callLine : Nat) : Bool :=
  check_pattern_line (lineAt lines callLine) ||
  (List.range' (callLine + 1) (min (callLine + 3) lines.length - (callLine + 1))).any
    fun i => check_pattern_line (lineAt lines i)

/-- A low-level call record of `_find_low_level_calls`. -/
structure LowLevelCall where
  line : Nat
  code : String
  checked : Bool
  deriving Repr, DecidableEq

/-- `_find_low_level_calls`. -/
def find_low_level_calls (lines : List (List Char)) : List LowLevelCall :=
  (List.range lines.length).filterMap fun i =>
    if low_level_call_line (lineAt lines i) then
      some { line := i + 1, code := String.mk (stripL (lineAt lines i)),
             checked := is_return_checked lines i }
    else none

/-- A transfer record of `_find_transfer_calls`. -/
structure TransferCall where
  line : Nat
  code : String
  deriving Repr, DecidableEq

/-- `_find_transfer_calls` (regex `\.transfer\(`). -/
def find_transfer_calls (lines : List (List Char)) : List TransferCall :=
  (List.range lines.length).filterMap fun i =>
    if containsSub ".transfer(".toList (lineAt lines i) then
      some { line := i + 1, code := String.mk (stripL (lineAt lines i)) }
    else none

/-- Substring followed by a word boundary (regex `pat\b`). -/
def subWordBoundary (pat : List Char) (s : List Char) : Bool :=
  searchAny
    (fun t =>
      match eatStr (String.mk pat) t with
      | some [] => true
      | some (c :: _) => !isWordChar c
      | none => false)
    s

/-- `_is_user_controlled_address`: the joined context of the
delegatecall line and up to three preceding lines must contain an
unsafe marker and no safe marker. -/
def is_user_controlled_address (lines : List (List Char)) (dcLine : Nat) : Bool :=
  let context := joinNL (sliceLines lines (dcLine - 3) (dcLine + 1))
  let hasRiskyMarker := containsSub "msg.sender".toList context ||
    subWordBoundary "_to".toList context || subWordBoundary "target".toList context ||
    subWordBoundary "_address".toList context || subWordBoundary "addr".toList context
  let hasSafe := subWordBoundary "implementation".toList context ||
    subWordBoundary "LOGIC_CONTRACT".toList context ||
    subWordBoundary "constant".toList context ||
    subWordBoundary "immutable".toList context
  hasRiskyMarker && !hasSafe

/-- A delegatecall record of `_find_delegatecalls`. -/
structure Delegatecall where
  line : Nat
  code : String
  user_controlled : Bool
  deriving Repr, DecidableEq

/-- `_find_delegatecalls` (regex `\.delegatecall\(`); the record's
`unsafe` key is `user_controlled` here. -/
def find_delegatecalls (lines : List (List Char)) : List Delegatecall :=
  (List.range lines.length).filterMap fun i =>
    if containsSub ".delegatecall(".toList (lineAt lines i) then
      some { line := i + 1, code := String.mk (stripL (lineAt lines i)),
             user_controlled := is_user_controlled_address lines i }
    else none

/-- Regex `function\s+claim\s*\(` at one position. -/
def funcClaimAt (s : List Char) : Bool :=
  ((eatStr "function" s).bind fun r =>
    (eatWs1 r).bind fun r2 =>
      (eatStr "claim" r2).bind fun r3 =>
        eatChar '(' (eatWs0 r3)).isSome

/-- `_check_pull_pattern` of the external-calls agent (its mapping
pattern ends in `balances\w*`, whose trailing `\w*` always matches). -/
def check_pull_pattern (src : List Char) : Bool :=
  searchAny Markov.ReentrancyAgent.funcWithdrawAt src ||
  searchAny funcClaimAt src ||
  searchAny (Markov.ReentrancyAgent.mappingBalanceAt "balances".toList) src ||
  containsSub "pendingWithdrawals".toList src

/-- `_check_gas_limits` (regex `\.call\x7bgas:`). -/
def check_gas_limits (src : List Char) : Bool :=
  containsSub (".call".toList ++ [lbrace] ++ "gas:".toList) src

/-- `_generate_checked_call`. -/
def generate_checked_call (code : String) : String :=
  if containsSub "(bool".toList code.toList then code
  else
    let fixedL := reSub
      (fun t =>
        ((eatWord1 t).bind fun p1 =>
          (eatStr ".call(" p1.2).map fun r2 =>
            ("(bool success, ) = ".toList ++ p1.1 ++ ".call(".toList, r2)))
      code.toList
    String.mk fixedL ++ "\nrequire(success, \"External call failed\");"

/-- `_generate_safe_delegatecall`. -/
def generate_safe_delegatecall (code : String) : String :=
  "// Add to contract:\nmapping(address => bool) public trustedImplementations;\n\n// In constructor or admin function:\n// trustedImplementations[yourLogicContract] = true;\n\nrequire(trustedImplementations[target], \"Untrusted implementation\");\n"
    ++ code

/-- The issue generated for one unchecked low-level call. -/
def mkUncheckedCallIssue (c : LowLevelCall) : Issue :=
  { severity := "medium"
    title := "Unchecked Low-Level Call"
    description := "Low-level call at line " ++ toString c.line ++
      " does not check return value. Failed calls will silently continue execution, potentially leading to unexpected behavior."
    location := "Line " ++ toString c.line
    recommendation := "1. Check return value with require()\n2. Or use transfer() for sending ETH\n3. Handle failure cases explicitly" }

/-- The fix generated for one unchecked low-level call. -/
def mkUncheckedCallFix (c : LowLevelCall) : CodeFix :=
  { issue := "Unchecked call return value"
    original := c.code
    fixed := generate_checked_call c.code
    explanation := "Add require() to check call success and handle failures" }

/-- The issue generated for one unsafe delegatecall. -/
def mkDelegatecallIssue (d : Delegatecall) : Issue :=
  { severity := "critical"
    title := "Unsafe Delegatecall to Untrusted Address"
    description := "Delegatecall at line " ++ toString d.line ++
      " uses user-controlled address. This allows arbitrary code execution in contract's context, potentially allowing attackers to modify storage and steal funds."
    location := "Line " ++ toString d.line
    recommendation := "1. Only delegatecall to whitelisted, trusted addresses\n2. Implement address whitelist mapping\n3. Consider using library calls instead" }

/-- The fix generated for one unsafe delegatecall. -/
def mkDelegatecallFix (d : Delegatecall) : CodeFix :=
  { issue := "Unsafe delegatecall"
    original := d.code
    fixed := generate_safe_delegatecall d.code
    explanation := "Add whitelist check before delegatecall to prevent arbitrary code execution" }

/-- The pull-pattern recommendation issue. -/
def pullPatternIssue : Issue :=
  { severity := "low"
    title := "Consider Pull Payment Pattern"
    description := "Contract uses push payments (direct transfers). Consider implementing pull payment pattern where users withdraw funds themselves. This prevents DOS attacks and reduces gas costs."
    location := "Multiple locations"
    recommendation := "Implement withdrawal pattern with mapping for pending balances" }

/-- `ExternalCallsAgent.analyze` (pure detection part). -/
def analyze (src : String) : DetectorResult :=
  let s := src.toList
  let lines := splitLinesL s
  let lowLevelCalls := find_low_level_calls lines
  let transferCalls := find_transfer_calls lines
  let delegatecalls := find_delegatecalls lines
  let uncheckedCalls := lowLevelCalls.filter (fun c => !c.checked)
  let flaggedDelegatecalls := delegatecalls.filter (fun d => d.user_controlled)
  let usesPull := check_pull_pattern s
  let hasGasLimits := check_gas_limits s
  { checks := [("low_level_calls_checked", uncheckedCalls.length = 0),
               ("uses_safe_transfer", transferCalls.length > 0),
               ("safe_delegatecall_usage", flaggedDelegatecalls.length = 0),
               ("uses_pull_payment_pattern", usesPull),
               ("has_gas_limits", hasGasLimits)]
    issues := uncheckedCalls.map mkUncheckedCallIssue ++
      flaggedDelegatecalls.map mkDelegatecallIssue ++
      (if !usesPull && transferCalls.length > 0 then [pullPatternIssue] else [])
    code_fixes := uncheckedCalls.map mkUncheckedCallFix ++
      flaggedDelegatecalls.map mkDelegatecallFix }

end Markov.ExternalCallsAgent

namespace Markov.GasOptimizationAgent

/-- Regex `function\s+\w+\s*\([^)]*\)\s*(external|public)` at one
position (case-sensitive): the `[^)]*` group ends at the first closing
parenthesis. -/
def funcVisibilityAt (s : List Char) : Bool :=
  ((eatStr "function" s).bind fun r =>
    (eatWs1 r).bind fun r2 =>
      (eatWord1 r2).bind fun p3 =>
        (eatChar '(' (eatWs0 p3.2)).bind fun r4 =>
          (eatChar ')' (r4.dropWhile (· ≠ ')'))).bind fun r5 =>
            let r6 := eatWs0 r5
            match eatStr "external" r6 with
            | some r7 => some r7
            | none => eatStr "public" r6).isSome

/-- Regex `(\w+\[\]\s+memory|\w+\s+memory)\s+\w+` at one position. -/
def memoryParamAt (s : List Char) : Bool :=
  (((eatWord1 s).bind fun p1 =>
    match (eatStr "[]" p1.2).bind eatWs1 with
    | some r2 => eatStr "memory" r2
    | none => (eatWs1 p1.2).bind fun r2 => eatStr "memory" r2).bind fun r3 =>
      (eatWs1 r3).bind fun r4 => eatWord1 r4).isSome

/-- A memory-vs-calldata record of `_find_memory_vs_calldata`.  The
Python record also stores the matched parameter texts under `params`,
which no later code reads; the embedding keeps only the fields that
flow into the result. -/
structure MemoryIssue where
  line : Nat
  code : String
  deriving Repr, DecidableEq

/-- `_find_memory_vs_calldata`. -/
def find_memory_vs_calldata (lines : List (List Char)) : List MemoryIssue :=
  (List.range lines.length).filterMap fun i =>
    if searchAny funcVisibilityAt (lineAt lines i) &&
       searchAny memoryParamAt (lineAt lines i) then
      some { line := i + 1, code := String.mk (stripL (lineAt lines i)) }
    else none

/-- Regex `contract\s+\w+` at one position. -/
def contractDeclAt (s : List Char) : Bool :=
  ((eatStr "contract" s).bind fun r => (eatWs1 r).bind eatWord1).isSome

/-- Regex `^\s*(uint|int|bool|address|bytes)` (anchored at line
start). -/
def lineStartsWithType (l : List Char) : Bool :=
  let r := eatWs0 l
  "uint".toList.isPrefixOf r || "int".toList.isPrefixOf r ||
  "bool".toList.isPrefixOf r || "address".toList.isPrefixOf r ||
  "bytes".toList.isPrefixOf r

/-- The type alternation `uint\d*|int\d*|bool|address|bytes\d*`,
returning the matched type text and the rest. -/
def matchTypeAlt (s : List Char) : Option (List Char × List Char) :=
  match eatStr "uint" s with
  | some r => some ("uint".toList ++ r.takeWhile Char.isDigit, r.dropWhile Char.isDigit)
  | none =>
    match eatStr "int" s with
    | some r => some ("int".toList ++ r.takeWhile Char.isDigit, r.dropWhile Char.isDigit)
    | none =>
      match eatStr "bool" s with
      | some r => some ("bool".toList, r)
      | none =>
        match eatStr "address" s with
        | some r => some ("address".toList, r)
        | none =>
          match eatStr "bytes" s with
          | some r => some ("bytes".toList ++ r.takeWhile Char.isDigit, r.dropWhile Char.isDigit)
          | none => none

/-- Regex
`(uint\d*|int\d*|bool|address|bytes\d*)\s+(public\s+|private\s+|internal\s+)?(\w+)`
at one position, returning type and name.  If the optional visibility
group matches but no word follows it, the regex backtracks to skip the
group, so the visibility keyword itself becomes the name. -/
def varDeclAt (s : List Char) : Option (List Char × List Char) :=
  (matchTypeAlt s).bind fun p1 =>
    (eatWs1 p1.2).bind fun r2 =>
      let tryMod (kw : String) : Option (List Char) := (eatStr kw r2).bind eatWs1
      let withMod :=
        match tryMod "public" with
        | some r3 => some r3
        | none =>
          match tryMod "private" with
          | some r3 => some r3
          | none => tryMod "internal"
      match withMod with
      | some r3 =>
        (match eatWord1 r3 with
         | some p4 => some (p1.1, p4.1)
         | none => (eatWord1 r2).map fun p4 => (p1.1, p4.1))
      | none => (eatWord1 r2).map fun p4 => (p1.1, p4.1)

/-- Leftmost `varDeclAt` match in a line. -/
def varDeclSearch : List Char → Option (List Char × List Char)
  | [] => none
  | c :: rest =>
    match varDeclAt (c :: rest) with
    | some p => some p
    | none => varDeclSearch rest

/-- First run of digits in a type text (regex `\d+` search). -/
def firstDigitRun (l : List Char) : List Char :=
  (l.dropWhile (fun c => !c.isDigit)).takeWhile Char.isDigit

/-- `_get_type_size` in bytes. -/
def get_type_size (t : List Char) : Nat :=
  if t = "bool".toList then 1
  else if "uint".toList.isPrefixOf t || "int".toList.isPrefixOf t then
    (match parseNatL (firstDigitRun t) with
     | some bits => bits
     | none => 256) / 8
  else if t = "address".toList then 20
  else if "bytes".toList.isPrefixOf t then
    match parseNatL (firstDigitRun t) with
    | some n => n
    | none => 32
  else 32

/-- A state-variable record of `_analyze_storage_packing`. -/
structure StateVar where
  line : Nat
  vtype : String
  name : String
  size : Nat
  deriving Repr, DecidableEq

/-- The state-variable collection loop: a contract declaration line
sets the flag and is itself skipped (`continue`); afterwards every line
that starts with a type keyword and parses as a declaration is
recorded. -/
def collectStateVarsGo : List (List Char) → Nat → Bool → List StateVar
  | [], _, _ => []
  | l :: rest, i, inContract =>
    if searchAny contractDeclAt l then collectStateVarsGo rest (i + 1) true
    else if inContract && lineStartsWithType l then
      match varDeclSearch l with
      | some (t, n) =>
        { line := i + 1, vtype := String.mk t, name := String.mk n,
          size := get_type_size t } :: collectStateVarsGo rest (i + 1) inContract
      | none => collectStateVarsGo rest (i + 1) inContract
    else collectStateVarsGo rest (i + 1) inContract

/-- Python string comparison (code-point lexicographic `<=`). -/
def strLeL : List Char → List Char → Bool
  | [], _ => true
  | _ :: _, [] => false
  | a :: as_, b :: bs => if a = b then strLeL as_ bs else decide (a < b)

/-- The slot-packing fold of `_is_packing_optimal`: a variable that
does not fit in the current 32-byte slot starts a new one. -/
def slotFold (sizes : List Nat) : Nat :=
  sizes.foldl (fun cur size => if cur + size > 32 then size else cur + size) 0

/-- `_is_packing_optimal`: the declared order must use no more of the
final slot than the size-sorted order. -/
def is_packing_optimal (sizes : List Nat) : Bool :=
  slotFold sizes ≤ slotFold (sizes.mergeSort (fun a b => a ≤ b))

/-- Result of `_analyze_storage_packing`; the `optimal = true` branch
carries no suggestion (Python omits the dict keys). -/
structure PackingResult where
  optimal : Bool
  original : String
  suggestion : Option String
  deriving Repr, DecidableEq

/-- Format one state variable for the packing suggestion. -/
def fmtStateVar (v : StateVar) : List Char :=
  "    ".toList ++ v.vtype.toList ++ [' '] ++ v.name.toList ++ [';']

/-- `_analyze_storage_packing`, with the stable sort by (size, name)
that Python's `sorted` performs. -/
def analyze_storage_packing (lines : List (List Char)) : PackingResult :=
  let stateVars := collectStateVarsGo lines 0 false
  if stateVars.length < 2 then { optimal := true, original := "", suggestion := none }
  else if is_packing_optimal (stateVars.map (·.size)) then
    { optimal := true, original := "", suggestion := none }
  else
    let sortedVars := stateVars.mergeSort fun a b =>
      a.size < b.size || (a.size = b.size && strLeL a.name.toList b.name.toList)
    { optimal := false
      original := String.mk (joinNL ((stateVars.take 5).map fmtStateVar))
      suggestion := some (String.mk (joinNL ((sortedVars.take 5).map fmtStateVar))) }

/-- Regex `for\s*\([^;]*;\s*\w+\s*<\s*\w+\.length` at one position. -/
def loopLengthAt (s : List Char) : Bool :=
  (((eatStr "for" s).map eatWs0).bind fun r =>
    (eatChar '(' r).bind fun r2 =>
      (eatChar ';' (r2.dropWhile (· ≠ ';'))).bind fun r3 =>
        (eatWord1 (eatWs0 r3)).bind fun p4 =>
          (eatChar '<' (eatWs0 p4.2)).bind fun r5 =>
            (eatWord1 (eatWs0 r5)).bind fun p6 =>
              eatStr ".length" p6.2).isSome

/-- Regex `for\s*\([^;]*;\s*[^;]*;\s*i\+\+` at one position. -/
def loopPostIncAt (s : List Char) : Bool :=
  (((eatStr "for" s).map eatWs0).bind fun r =>
    (eatChar '(' r).bind fun r2 =>
      (eatChar ';' (r2.dropWhile (· ≠ ';'))).bind fun r3 =>
        (eatChar ';' (r3.dropWhile (· ≠ ';'))).bind fun r4 =>
          eatStr "i++" (eatWs0 r4)).isSome

/-- Leftmost `(\w+)\.length` capture in a line. -/
def arrayNameSearch : List Char → Option (List Char)
  | [] => none
  | c :: rest =>
    match (eatWord1 (c :: rest)).bind fun p =>
        (eatStr ".length" p.2).map fun _ => p.1 with
    | some n => some n
    | none => arrayNameSearch rest

/-- `_generate_cached_length_loop`. -/
def generate_cached_length_loop (original : List Char) : String :=
  match arrayNameSearch original with
  | some name =>
    "uint256 length = " ++ String.mk name ++ ".length;\n        " ++
      String.mk (replaceSub (name ++ ".length".toList) "length".toList original)
  | none => String.mk original

/-- A loop-inefficiency record (issue text plus its fix; the Python
`if loop_issue.get('fix')` test is always true since both variants
build a nonempty fix dict). -/
structure LoopIssue where
  line : Nat
  title : String
  description : String
  recommendation : String
  fix : CodeFix
  deriving Repr, DecidableEq

/-- `_find_loop_inefficiencies`: each line may produce the
length-in-condition record and then the post-increment record. -/
def find_loop_inefficiencies (lines : List (List Char)) : List LoopIssue :=
  (List.range lines.length).flatMap fun i =>
    let l := lineAt lines i
    (if searchAny loopLengthAt l then
      [{ line := i + 1
         title := "Array Length in Loop Condition"
         description := "Loop reads array.length on every iteration (SLOAD = 100 gas each). Cache length in local variable to save gas."
         recommendation := "uint256 len = array.length; for (uint256 i; i < len; ++i)"
         fix := { issue := "Array length in loop"
                  original := String.mk (stripL l)
                  fixed := generate_cached_length_loop l
                  explanation := "Cache array length to avoid repeated SLOAD operations" } }]
     else []) ++
    (if searchAny loopPostIncAt l then
      [{ line := i + 1
         title := "Use ++i Instead of i++"
         description := "Using ++i saves ~5 gas per iteration compared to i++"
         recommendation := "Change i++ to ++i in loop increment"
         fix := { issue := "Post-increment in loop"
                  original := String.mk (stripL l)
                  fixed := String.mk (replaceSub "i++".toList "++i".toList l)
                  explanation := "Pre-increment (++i) is more gas efficient than post-increment (i++)" } }]
     else [])

/-- `_extract_function_body`: lines are collected (and the brace count
updated) only once a brace has been seen, over a 100-line window. -/
def extract_function_body_go : List (List Char) → Int → Bool → List (List Char)
  | [], _, _ => []
  | l :: rest, brace, started =>
    let started' := started || memCh lbrace l
    if started' then
      let brace' := brace + (countCh lbrace l : Int) - (countCh rbrace l : Int)
      l :: (if brace' = 0 then [] else extract_function_body_go rest brace' started')
    else extract_function_body_go rest brace started'

/-- `_extract_function_body` as the list of collected lines.  (The
Python joins them and re-splits them to iterate; the lines carry no
newline, so that round trip is the identity, and the empty-body case
joins to the empty string whose token list is empty either way.) -/
def extract_function_body (lines : List (List Char)) (start : Nat) : List (List Char) :=
  extract_function_body_go ((lines.drop start).take 100) 0 false

/-- The identifier keywords `_find_redundant_storage_reads` discards. -/
def discardedKeywords : List String :=
  ["memory", "storage", "calldata", "return", "if", "for", "while", "function"]

/-- Word tokens of a line matched by `\b([a-z][a-zA-Z0-9_]*)\b`: the
maximal word runs whose first character is a lowercase letter (the
boundaries force maximality; the character class after the first equals
the word class). -/
def lowerTokens (l : List Char) : List (List Char) :=
  (wordRuns l).filter fun r =>
    match r with
    | c :: _ => decide ('a' ≤ c) && decide (c ≤ 'z')
    | [] => false

/-- Insertion-ordered occurrence counting, as a Python dict of
counters. -/
def bumpCount : List (String × Nat) → String → List (String × Nat)
  | [], w => [(w, 1)]
  | (k, n) :: rest, w =>
    if k = w then (k, n + 1) :: rest else (k, n) :: bumpCount rest w

/-- A redundant-read record. -/
structure RedundantRead where
  line : Nat
  variable_name : String
  count : Nat
  deriving Repr, DecidableEq

/-- `_find_redundant_storage_reads`. -/
def find_redundant_storage_reads (lines : List (List Char)) : List RedundantRead :=
  (List.range lines.length).flatMap fun i =>
    if containsSub "function".toList (lineAt lines i) then
      let body := extract_function_body lines i
      let tokens := (body.flatMap lowerTokens).filterMap fun r =>
        let w := String.mk r
        if discardedKeywords.contains w then none else some w
      let usage := tokens.foldl bumpCount []
      (usage.filter fun p => p.2 ≥ 4).map fun p =>
        { line := i + 1, variable_name := p.1, count := p.2 }
    else []

/-- The variable-declaration regex of `_find_constant_opportunities`:
`(uint\d*|int\d*|address|bytes\d*)\s+(public\s+|private\s+)?(\w+)\s*=`
at one position (no `bool`, no `internal`, and the name must be
followed by an equals sign). -/
def constDeclAt (s : List Char) : Option (List Char × List Char) :=
  let typeAlt : Option (List Char × List Char) :=
    match eatStr "uint" s with
    | some r => some ("uint".toList ++ r.takeWhile Char.isDigit, r.dropWhile Char.isDigit)
    | none =>
      match eatStr "int" s with
      | some r => some ("int".toList ++ r.takeWhile Char.isDigit, r.dropWhile Char.isDigit)
      | none =>
        match eatStr "address" s with
        | some r => some ("address".toList, r)
        | none =>
          match eatStr "bytes" s with
          | some r => some ("bytes".toList ++ r.takeWhile Char.isDigit, r.dropWhile Char.isDigit)
          | none => none
  typeAlt.bind fun p1 =>
    (eatWs1 p1.2).bind fun r2 =>
      let tryMod (kw : String) : Option (List Char) := (eatStr kw r2).bind eatWs1
      let finish (r : List Char) : Option (List Char × List Char) :=
        (eatWord1 r).bind fun p4 =>
          (eatChar '=' (eatWs0 p4.2)).map fun _ => (p1.1, p4.1)
      let withMod :=
        match tryMod "public" with
        | some r3 => some r3
        | none => tryMod "private"
      match withMod with
      | some r3 =>
        (match finish r3 with
         | some p => some p
         | none => finish r2)
      | none => finish r2

/-- Leftmost `constDeclAt` match. -/
def constDeclSearch : List Char → Option (List Char × List Char)
  | [] => none
  | c :: rest =>
    match constDeclAt (c :: rest) with
    | some p => some p
    | none => constDeclSearch rest

/-- Regex `=\s*[0-9x"\']+` at one position (a literal-looking
right-hand side). -/
def literalAssignAt (s : List Char) : Bool :=
  match eatChar '=' s with
  | some r =>
    match eatWs0 r with
    | c :: _ => c.isDigit || c = 'x' || c = '"' || c = '\''
    | [] => false
  | none => false

/-- A could-be-constant record. -/
structure ConstOpportunity where
  line : Nat
  name : String
  vtype : String
  deriving Repr, DecidableEq

/-- `_find_constant_opportunities`. -/
def find_constant_opportunities (lines : List (List Char)) : List ConstOpportunity :=
  (List.range lines.length).filterMap fun i =>
    let l := lineAt lines i
    match constDeclSearch l with
    | some (t, n) =>
      if !containsSub "constant".toList l && !containsSub "immutable".toList l &&
         searchAny literalAssignAt l then
        some { line := i + 1, name := String.mk n, vtype := String.mk t }
      else none
    | none => none

/-- The issue generated for one memory-vs-calldata record. -/
def mkMemoryIssue (m : MemoryIssue) : Issue :=
  { severity := "low"
    title := "Inefficient Data Location (Memory vs Calldata)"
    description := "Parameter at line " ++ toString m.line ++
      " uses 'memory' but could use 'calldata' for read-only data. Using calldata saves ~200 gas per parameter."
    location := "Line " ++ toString m.line
    recommendation := "Change parameter location from memory to calldata" }

/-- The fix generated for one memory-vs-calldata record. -/
def mkMemoryFix (m : MemoryIssue) : CodeFix :=
  { issue := "Memory instead of calldata"
    original := m.code
    fixed := String.mk (replaceSub " memory ".toList " calldata ".toList m.code.toList)
    explanation := "Calldata is cheaper than memory for external function parameters" }

/-- The storage-packing issue. -/
def packingIssue : Issue :=
  { severity := "low"
    title := "Suboptimal Storage Packing"
    description := "State variables could be reordered to pack into fewer storage slots. Each storage slot costs ~20,000 gas to initialize. Better packing can save significant gas on deployment and state modifications."
    location := "Contract storage layout"
    recommendation := "Reorder state variables: smaller types together, then larger types" }

/-- The issue generated for one redundant-read record. -/
def mkRedundantIssue (r : RedundantRead) : Issue :=
  { severity := "low"
    title := "Redundant Storage Read"
    description := "Variable '" ++ r.variable_name ++ "' read " ++ toString r.count ++
      " times in function. Each SLOAD costs 100 gas. Cache in memory variable to save gas."
    location := "Line " ++ toString r.line
    recommendation := "Cache " ++ r.variable_name ++ " in memory at start of function" }

/-- The issue generated for one could-be-constant record. -/
def mkConstIssue (c : ConstOpportunity) : Issue :=
  { severity := "low"
    title := "Variable Could Be Constant"
    description := "Variable '" ++ c.name ++
      "' is never modified and could be declared as constant or immutable, saving gas on deployment and reads."
    location := "Line " ++ toString c.line
    recommendation := "Declare " ++ c.name ++ " as constant or immutable" }

/-- The issue built from one loop-inefficiency record. -/
def mkLoopIssue (li : LoopIssue) : Issue :=
  { severity := "low"
    title := li.title
    description := li.description
    location := "Line " ++ toString li.line
    recommendation := li.recommendation }

/-- `GasOptimizationAgent.analyze` (pure detection part). -/
def analyze (src : String) : DetectorResult :=
  let s := src.toList
  let lines := splitLinesL s
  let memoryIssues := find_memory_vs_calldata lines
  let storagePacking := analyze_storage_packing lines
  let loopIssues := find_loop_inefficiencies lines
  let redundantReads := find_redundant_storage_reads lines
  let constOpportunities := find_constant_opportunities lines
  let packingTruthy := !storagePacking.optimal &&
    (match storagePacking.suggestion with
     | some sg => !sg.isEmpty
     | none => false)
  { checks := [("optimal_data_location", memoryIssues.length = 0),
               ("efficient_storage_packing", storagePacking.optimal),
               ("optimized_loops", loopIssues.length = 0),
               ("cached_storage_reads", redundantReads.length = 0),
               ("uses_constants", constOpportunities.length = 0)]
    issues := memoryIssues.map mkMemoryIssue ++
      (if packingTruthy then [packingIssue] else []) ++
      loopIssues.map mkLoopIssue ++
      (redundantReads.take 3).map mkRedundantIssue ++
      constOpportunities.map mkConstIssue
    code_fixes := memoryIssues.map mkMemoryFix ++
      (if packingTruthy then
        [{ issue := "Inefficient storage packing"
           original := storagePacking.original
           fixed := (storagePacking.suggestion).getD ""
           explanation := "Reordered variables to fit in fewer 32-byte storage slots" : CodeFix }]
       else []) ++
      loopIssues.map (·.fix) }

end Markov.GasOptimizationAgent

namespace Markov.CoordinatorAgent

/-- The empty result the coordinator substitutes for a failed agent:
`\x7b"checks": \x7b\x7d, "issues": [], "code_fixes": []\x7d`. -/
def emptyDetectorResult : DetectorResult :=
  { checks := [], issues := [], code_fixes := [] }

/-- Dispatch table of the five specialist agents, in the order the
coordinator gathers them. -/
def runDetector (i : Fin 5) (src : String) : DetectorResult :=
  match i with
  | 0 => Markov.ReentrancyAgent.analyze src
  | 1 => Markov.AccessControlAgent.analyze src
  | 2 => Markov.IntegerOverflowAgent.analyze src
  | 3 => Markov.ExternalCallsAgent.analyze src
  | 4 => Markov.GasOptimizationAgent.analyze src

/-- The aggregation keys, in the order the coordinator builds
`all_findings`. -/
def detectorName (i : Fin 5) : String :=
  match i with
  | 0 => "Reentrancy"
  | 1 => "AccessControl"
  | 2 => "IntegerOverflow"
  | 3 => "ExternalCalls"
  | 4 => "GasOptimization"

/-- The per-task failure boundary: `asyncio.gather(...,
return_exceptions=True)` hands back either a result or the captured
exception, and the coordinator replaces an exception with the empty
result. -/
def recoverResult : Except String DetectorResult → DetectorResult
  | Except.ok r => r
  | Except.error _ => emptyDetectorResult

/-- The `all_findings` / report `criteria` mapping the coordinator
builds from the five gathered outcomes. -/
def auditCriteria (results : Fin 5 → Except String DetectorResult) :
    List (String × DetectorResult) :=
  [("Reentrancy", recoverResult (results 0)),
   ("AccessControl", recoverResult (results 1)),
   ("IntegerOverflow", recoverResult (results 2)),
   ("ExternalCalls", recoverResult (results 3)),
   ("GasOptimization", recoverResult (results 4))]

/-- An audit run in which detector `i` raises (with message `e`) and
the other four complete normally on the same source. -/
def auditWithOneFailure (src : String) (i : Fin 5) (e : String) :
    List (String × DetectorResult) :=
  auditCriteria fun j =>
    if j = i then Except.error e else Except.ok (runDetector j src)

/-- The summary accumulator of `_calculate_summary`. -/
structure Summary where
  total_checks : Nat
  passed_checks : Nat
  critical_issues : Nat
  high_issues : Nat
  medium_issues : Nat
  low_issues : Nat
  deriving Repr, DecidableEq

/-- One `_calculate_summary` loop step over a detector's entry. -/
def summaryStep (acc : Summary) (entry : String × DetectorResult) : Summary :=
  let d := entry.2
  let sevCount (sev : String) : Nat := (d.issues.filter (fun is => is.severity = sev)).length
  { total_checks := acc.total_checks + d.checks.length
    passed_checks := acc.passed_checks + (d.checks.filter (fun c => c.2)).length
    critical_issues := acc.critical_issues + sevCount "critical"
    high_issues := acc.high_issues + sevCount "high"
    medium_issues := acc.medium_issues + sevCount "medium"
    low_issues := acc.low_issues + sevCount "low" }

/-- `_calculate_summary`: fold the step over the keyed findings.  (An
issue whose severity is none of the four tallied levels is ignored by
the Python `if severity in severity_counts` guard, which the four
per-level filters reproduce.) -/
def calculate_summary (findings : List (String × DetectorResult)) : Summary :=
  findings.foldl summaryStep
    { total_checks := 0, passed_checks := 0, critical_issues := 0,
      high_issues := 0, medium_issues := 0, low_issues := 0 }

end Markov.CoordinatorAgent

namespace Markov.MeTTaReasoner

/-- A flattened vulnerability record built by
`reason_about_findings`: detector of origin, severity, title, and the
category derived from the title. -/
structure RVuln where
  agent : String
  severity : String
  title : String
  vtype : String
  deriving Repr, DecidableEq

/-- `_categorize_vulnerability`: first matching keyword of the
lowercased title wins. -/
def categorize_vulnerability (title : String) : String :=
  let t := lowerAll title.toList
  if containsSub "reentrancy".toList t then "reentrancy"
  else if containsSub "access".toList t || containsSub "authorization".toList t then
    "access-control"
  else if containsSub "overflow".toList t || containsSub "underflow".toList t then
    "integer-overflow"
  else if containsSub "call".toList t then "external-call"
  else if containsSub "gas".toList t then "gas-optimization"
  else "other"

/-- The flattening loop of `reason_about_findings` over the aggregated
findings (dict insertion order). -/
def flattenFindings (allFindings : List (String × DetectorResult)) : List RVuln :=
  allFindings.flatMap fun entry =>
    entry.2.issues.map fun is =>
      { agent := entry.1, severity := is.severity, title := is.title,
        vtype := categorize_vulnerability is.title }

/-- The severity weights of `_calculate_risk_score`; an unrecognized
severity weighs 1. -/
def severity_weight (sev : String) : Nat :=
  if sev = "critical" then 10
  else if sev = "high" then 7
  else if sev = "medium" then 4
  else if sev = "low" then 2
  else if sev = "info" then 1
  else 1

/-- Exact two-decimal rounding.  Everywhere it is applied in this file
its argument is a one-decimal value, so `q * 100` is an integer and the
result equals the argument: Python's float `round(x, 2)` and this
function then agree exactly. -/
def round2 (q : ℚ) : ℚ := (Int.floor (q * 100 + 1 / 2) : ℚ) / 100

/-- `_calculate_risk_score`: severity-weight total, scaled to 0–10,
capped, rounded to two decimals. -/
def calculate_risk_score (vulns : List RVuln) : ℚ :=
  let total : Nat := (vulns.map fun v => severity_weight v.severity).sum
  round2 (min ((total : ℚ) / 10) 10)

end Markov.MeTTaReasoner

namespace Markov.AdvancedReasoner

/-- A vulnerability record as consumed by the advanced reasoner: the
dict keys `type`, `severity`, `description` (each read with a `.get`
default, so modelled as always-present fields). -/
structure AVuln where
  vtype : String
  severity : String
  description : String
  deriving Repr, DecidableEq

/-- Contract metadata truthiness flags read by the reasoner. -/
structure ContractMeta where
  is_verified : Bool
  holds_funds : Bool
  deriving Repr, DecidableEq

/-- The `type` strings of a vulnerability list (`vuln_types`). -/
def vulnTypes (vulns : List AVuln) : List String := vulns.map (·.vtype)

/-- An interaction record of `_analyze_vulnerability_interactions`. -/
structure Interaction where
  itype : String
  vulnerabilities : List String
  severity : String
  description : String
  amplification_factor : ℚ
  deriving Repr, DecidableEq

/-- The reentrancy + access-control interaction record. -/
def interactionRA : Interaction :=
  { itype := "compound"
    vulnerabilities := ["reentrancy", "access-control"]
    severity := "critical"
    description := "Reentrancy vulnerability combined with weak access control allows unauthorized attackers to drain funds through recursive calls."
    amplification_factor := 2.5 }

/-- The integer-overflow + external-call interaction record. -/
def interactionIE : Interaction :=
  { itype := "compound"
    vulnerabilities := ["integer-overflow", "external-call"]
    severity := "high"
    description := "Integer overflow in external call context can corrupt contract state and lead to unexpected behavior in dependent contracts."
    amplification_factor := 1.8 }

/-- The front-running + timestamp interaction record. -/
def interactionFT : Interaction :=
  { itype := "compound"
    vulnerabilities := ["front-running", "timestamp"]
    severity := "high"
    description := "Timestamp-dependent logic vulnerable to front-running allows attackers to manipulate timing for financial gain."
    amplification_factor := 1.6 }

/-- `_analyze_vulnerability_interactions`: the three hard-coded pair
checks, in source order. -/
def analyze_vulnerability_interactions (vulns : List AVuln) : List Interaction :=
  let types := vulnTypes vulns
  (if types.contains "reentrancy" && types.contains "access-control"
   then [interactionRA] else []) ++
  (if types.contains "integer-overflow" && types.contains "external-call"
   then [interactionIE] else []) ++
  (if types.contains "front-running" && types.contains "timestamp"
   then [interactionFT] else [])

/-- A compound-vulnerability record of
`_detect_compound_vulnerabilities`. -/
structure CompoundVuln where
  types : List String
  name : String
  severity : String
  risk_multiplier : ℚ
  description : String
  deriving Repr, DecidableEq

/-- The `dangerous_combinations` table, in source order. -/
def dangerous_combinations : List CompoundVuln :=
  [{ types := ["reentrancy", "access-control"]
     name := "Reentrancy with Weak Access Control"
     severity := "critical"
     risk_multiplier := 3.0
     description := "Critical compound vulnerability: Reentrancy can be exploited by unauthorized parties due to missing access controls. This significantly amplifies the attack surface and potential loss." },
   { types := ["integer-overflow", "external-call"]
     name := "Arithmetic Overflow in External Context"
     severity := "high"
     risk_multiplier := 2.0
     description := "Integer overflow combined with external calls can propagate corrupted state to dependent contracts, causing cascading failures." },
   { types := ["access-control", "dos"]
     name := "Unauthorized DoS Attack"
     severity := "high"
     risk_multiplier := 1.8
     description := "Missing access control on DoS-vulnerable functions allows anyone to halt contract operations indefinitely." },
   { types := ["reentrancy", "integer-overflow"]
     name := "Reentrancy with State Corruption"
     severity := "critical"
     risk_multiplier := 2.5
     description := "Reentrancy combined with integer overflow can cause permanent state corruption while draining funds." }]

/-- `_detect_compound_vulnerabilities`: keep each table entry whose
categories are all present among the vulnerability types. -/
def detect_compound_vulnerabilities (vulns : List AVuln) : List CompoundVuln :=
  dangerous_combinations.filter fun combo =>
    combo.types.all fun t => (vulnTypes vulns).contains t

/-- The base exploit probability table of
`_calculate_exploit_probabilities`; an unlisted category defaults to
0.50. -/
def base_prob (vtype : String) : ℚ :=
  if vtype = "reentrancy" then 0.85
  else if vtype = "access-control" then 0.95
  else if vtype = "integer-overflow" then 0.70
  else if vtype = "external-call" then 0.60
  else if vtype = "front-running" then 0.75
  else if vtype = "timestamp" then 0.65
  else if vtype = "dos" then 0.80
  else if vtype = "gas-optimization" then 0.30
  else 0.50

/-- The severity weights of `_categorize_risk`; an unrecognized
severity (including `info`) weighs 2. -/
def risk_severity_weight (sev : String) : ℚ :=
  if sev = "critical" then 10
  else if sev = "high" then 7
  else if sev = "medium" then 4
  else if sev = "low" then 2
  else 2

/-- `_categorize_risk` on the (capped, unrounded) exploit
probability. -/
def categorize_risk (probability : ℚ) (sev : String) : String :=
  let risk_score := probability * risk_severity_weight sev
  if risk_score ≥ 7 then "EXTREME"
  else if risk_score ≥ 5 then "HIGH"
  else if risk_score ≥ 3 then "MODERATE"
  else "LOW"

/-- One exploit-probability record.  The Python stores the probability
field as `round(exploit_prob, 2)`, a float display rounding of the
same capped product it feeds unrounded into `_categorize_risk`; the
embedding keeps the exact capped product in the field (see the file
header on floats). -/
structure ExploitRecord where
  vulnerability : String
  severity : String
  exploit_probability : ℚ
  base_probability : ℚ
  complexity : ℚ
  visibility : ℚ
  value_at_risk : ℚ
  risk_level : String
  deriving Repr, DecidableEq

/-- `_calculate_exploit_probabilities` for one vulnerability. -/
def exploitRecord (meta : ContractMeta) (v : AVuln) : ExploitRecord :=
  let base := base_prob v.vtype
  let complexity_factor : ℚ :=
    if containsSub "requires complex attack".toList (lowerAll v.description.toList)
    then 0.6 else 1.0
  let visibility_factor : ℚ := if meta.is_verified then 0.9 else 1.0
  let value_factor : ℚ := if meta.holds_funds then 1.2 else 1.0
  let exploit_prob := min (base * complexity_factor * visibility_factor * value_factor) 1.0
  { vulnerability := v.vtype
    severity := v.severity
    exploit_probability := exploit_prob
    base_probability := base
    complexity := complexity_factor
    visibility := visibility_factor
    value_at_risk := value_factor
    risk_level := categorize_risk exploit_prob v.severity }

/-- `_calculate_exploit_probabilities` over a vulnerability list. -/
def calculate_exploit_probabilities (vulns : List AVuln) (meta : ContractMeta) :
    List ExploitRecord :=
  vulns.map (exploitRecord meta)

end Markov.AdvancedReasoner

namespace Markov

/-- The per-entry checks count, for stating the C4 summary property. -/
def checksSizes (findings : List (String × DetectorResult)) : List Nat :=
  findings.map fun p => p.2.checks.length

/-- All check entries of all detector results, in order. -/
def allCheckEntries (findings : List (String × DetectorResult)) : List (String × Bool) :=
  findings.flatMap fun p => p.2.checks

/-- Total severity weight of a flattened finding list, as the C10 claim
words the total. -/
def sumWeights (vs : List MeTTaReasoner.RVuln) : Nat :=
  (vs.map fun v => MeTTaReasoner.severity_weight v.severity).sum

/-- The exploit-probability base table exactly as the C6 claim words it
(five listed entries and a default of 0.50), for comparison with the
source's table. -/
def claimC6BaseTable (vtype : String) : ℚ :=
  if vtype = "access-control" then 0.95
  else if vtype = "reentrancy" then 0.85
  else if vtype = "integer-overflow" then 0.70
  else if vtype = "external-call" then 0.60
  else if vtype = "gas-optimization" then 0.30
  else 0.50

/-- The C3 scenario source: an external call, a neutral line, and the
compound-assignment state write two lines later; no reentrancy-guard
token anywhere. -/
def c3Src : String :=
  "token.call\x7bvalue: x\x7d(...);\nrecipient.notify();\nbalance -= x;"

/-- The C8 input: a block opened on line 0 and closed on line 2, with a
further line after it. -/
def c8Lines : List (List Char) :=
  ["unchecked \x7b".toList, "x = 1;".toList, "\x7d".toList, "y = 2;".toList]

/-- The C2 counterexample input: one reentrancy finding and one
access-control finding. -/
def c2Vulns : List AdvancedReasoner.AVuln :=
  [{ vtype := "reentrancy", severity := "high", description := "" },
   { vtype := "access-control", severity := "critical", description := "" }]

/-- C5 witness input. -/
def c5V1 : List AdvancedReasoner.AVuln :=
  [{ vtype := "reentrancy", severity := "high", description := "" },
   { vtype := "access-control", severity := "critical", description := "" }]

/-- C5 witness input: same categories as `c5V1` permuted and with a
duplicate. -/
def c5V2 : List AdvancedReasoner.AVuln :=
  [{ vtype := "access-control", severity := "critical", description := "" },
   { vtype := "reentrancy", severity := "high", description := "" },
   { vtype := "reentrancy", severity := "high", description := "" }]

/-- The first dangerous combination of the table, used by the C5
witness. -/
def c5Combo : AdvancedReasoner.CompoundVuln :=
  AdvancedReasoner.dangerous_combinations.getD 0
    { types := [], name := "", severity := "", risk_multiplier := 0, description := "" }

/-- The C6 counterexample vulnerability: a category the claim's base
table does not list. -/
def c6Vuln : AdvancedReasoner.AVuln :=
  { vtype := "front-running", severity := "low", description := "" }

/-- The C6 counterexample metadata: neither verified nor
funds-holding, so every contextual factor is 1. -/
def c6Meta : AdvancedReasoner.ContractMeta := { is_verified := false, holds_funds := false }

/-- The C7 counterexample source: an unprotected privileged function of
the critical keyword class. -/
def c7Src : String := "function withdraw() public \x7b\n\x7d"

/-- C7 witness source for the privileged-function conjunct. -/
def c7wSrc : String := "function mint() public \x7b\n\x7d"

/-- C7 witness source for the tx.origin conjunct. -/
def c7wSrc2 : String := "require(tx.origin == owner);"

/-- C10 witness input. -/
def c10V1 : List MeTTaReasoner.RVuln :=
  [{ agent := "Reentrancy", severity := "high", title := "Reentrancy Vulnerability Detected",
     vtype := "reentrancy" },
   { agent := "AccessControl", severity := "critical",
     title := "Unprotected Privileged Function: withdraw", vtype := "access-control" }]

/-- C10 witness input: `c10V1` permuted. -/
def c10V2 : List MeTTaReasoner.RVuln :=
  [{ agent := "AccessControl", severity := "critical",
     title := "Unprotected Privileged Function: withdraw", vtype := "access-control" },
   { agent := "Reentrancy", severity := "high", title := "Reentrancy Vulnerability Detected",
     vtype := "reentrancy" }]

/-- C10 witness appended finding. -/
def c10v3 : MeTTaReasoner.RVuln :=
  { agent := "ExternalCalls", severity := "medium", title := "Unchecked Low-Level Call",
    vtype := "external-call" }

/-- Bridge between the `Bool` containment test the source's `in`
operator compiles to and list membership. -/
theorem contains_iff_mem (l : List String) (a : String) : l.contains a = true ↔ a ∈ l := by
  simp [List.contains, List.elem_iff]

/-- Membership in a conditional singleton. -/
theorem mem_ite_singleton {α} (r x : α) (c : Prop) [Decidable c] :
    r ∈ (if c then [x] else ([] : List α)) ↔ c ∧ r = x := by
  split <;> simp_all

/-- Generalized accumulator form of the `_calculate_summary` fold, for
the two counters the C4 claim is about. -/
theorem summary_foldl_spec (fs : List (String × DetectorResult))
    (acc : CoordinatorAgent.Summary) :
    (fs.foldl CoordinatorAgent.summaryStep acc).total_checks
        = acc.total_checks + (checksSizes fs).sum ∧
    (fs.foldl CoordinatorAgent.summaryStep acc).passed_checks
        = acc.passed_checks + (allCheckEntries fs).countP (fun c => c.2) := by
  induction fs generalizing acc with
  | nil => simp [checksSizes, allCheckEntries]
  | cons hd tl ih =>
    have h := ih (CoordinatorAgent.summaryStep acc hd)
    simp only [List.foldl_cons] at *
    refine ⟨?_, ?_⟩
    · rw [h.1]
      simp [CoordinatorAgent.summaryStep, checksSizes, Nat.add_assoc]
    · rw [h.2]
      simp [CoordinatorAgent.summaryStep, allCheckEntries, List.countP_append,
        List.countP_eq_length_filter, Nat.add_assoc]

/-- Rounding helper: the floor of an integer plus one half. -/
theorem floor_nat_add_half (n : ℕ) : Int.floor ((n : ℚ) + 1 / 2) = (n : ℤ) := by
  rw [Int.floor_eq_iff]
  constructor <;> push_cast <;> norm_num

/-- `round2` is exact on one-decimal values. -/
theorem round2_nat_div_ten (n : ℕ) :
    MeTTaReasoner.round2 ((n : ℚ) / 10) = (n : ℚ) / 10 := by
  unfold MeTTaReasoner.round2
  have h : ((n : ℚ) / 10) * 100 + 1 / 2 = ((10 * n : ℕ) : ℚ) + 1 / 2 := by push_cast; ring
  rw [h, floor_nat_add_half]
  push_cast
  ring

/-- The capped tenth of a natural number, as a natural-number
minimum. -/
theorem min_div_ten (t : ℕ) :
    min ((t : ℚ) / 10) 10 = ((min t 100 : ℕ) : ℚ) / 10 := by
  rcases le_total t 100 with h | h
  · rw [min_eq_left (by rw [div_le_iff₀ (by norm_num)]; exact_mod_cast by linarith :
        (t : ℚ) / 10 ≤ 10), Nat.min_eq_left h]
  · rw [min_eq_right (by rw [le_div_iff₀ (by norm_num)]; exact_mod_cast by linarith :
        (10 : ℚ) ≤ (t : ℚ) / 10), Nat.min_eq_right h]
    norm_num

/-- Closed form of `_calculate_risk_score`: the rounding is exact, so
the score is the capped weight total over ten. -/
theorem risk_score_eq (vs : List MeTTaReasoner.RVuln) :
    MeTTaReasoner.calculate_risk_score vs = ((min (sumWeights vs) 100 : ℕ) : ℚ) / 10 := by
  show MeTTaReasoner.round2 (min ((sumWeights vs : ℚ) / 10) 10) = _
  rw [min_div_ten, round2_nat_div_ten]

/-- C1: when exactly one of the five gathered detector tasks raises,
the coordinator's `criteria` mapping still has all five keys in order;
the failed detector's entry is the well-formed empty result and each
other entry is exactly what that detector produces alone on the same
source.  The aggregation is a total function of the five outcomes, so
no exception reaches the caller. -/
theorem claim_C1 (src : String) (i : Fin 5) (e : String) :
    CoordinatorAgent.auditWithOneFailure src i e =
      [("Reentrancy",
        if i = 0 then CoordinatorAgent.emptyDetectorResult else ReentrancyAgent.analyze src),
       ("AccessControl",
        if i = 1 then CoordinatorAgent.emptyDetectorResult else AccessControlAgent.analyze src),
       ("IntegerOverflow",
        if i = 2 then CoordinatorAgent.emptyDetectorResult else IntegerOverflowAgent.analyze src),
       ("ExternalCalls",
        if i = 3 then CoordinatorAgent.emptyDetectorResult else ExternalCallsAgent.analyze src),
       ("GasOptimization",
        if i = 4 then CoordinatorAgent.emptyDetectorResult else GasOptimizationAgent.analyze src)] ∧
    (CoordinatorAgent.auditWithOneFailure src i e).map Prod.fst =
      ["Reentrancy", "AccessControl", "IntegerOverflow", "ExternalCalls", "GasOptimization"] := by
  constructor
  · fin_cases i <;>
      simp [CoordinatorAgent.auditWithOneFailure, CoordinatorAgent.auditCriteria,
        CoordinatorAgent.recoverResult, CoordinatorAgent.runDetector]
  · fin_cases i <;>
      simp [CoordinatorAgent.auditWithOneFailure, CoordinatorAgent.auditCriteria]

/-- C2 counterexample: on a list containing a reentrancy and an
access-control finding, the step-1 interaction analysis emits exactly
one record for that pair and its multiplier is 2.5 — not the 3.0 the
claim asserts for the shared table. -/
theorem claim_C2_counterexample :
    AdvancedReasoner.analyze_vulnerability_interactions c2Vulns =
      [AdvancedReasoner.interactionRA] ∧
    AdvancedReasoner.interactionRA.amplification_factor = 2.5 ∧ (2.5 : ℚ) ≠ 3 := by
  refine ⟨rfl, rfl, by norm_num⟩

/-- C2 (amended): step 4 uses the four-pair table with multipliers
3.0 / 2.0 / 1.8 / 2.5 (with `dos` as the denial-of-service token),
emitting a record exactly when all categories of the pair are present,
while step 1 uses its own three-pair table — reentrancy with
access-control at critical 2.5, integer-overflow with external-call at
high 1.8, front-running with timestamp at high 1.6 — likewise exactly
when both categories are present. -/
theorem claim_C2 (vs : List AdvancedReasoner.AVuln) :
    (∀ r : AdvancedReasoner.Interaction,
      r ∈ AdvancedReasoner.analyze_vulnerability_interactions vs ↔
        ((r = AdvancedReasoner.interactionRA ∧
            "reentrancy" ∈ AdvancedReasoner.vulnTypes vs ∧
            "access-control" ∈ AdvancedReasoner.vulnTypes vs) ∨
         (r = AdvancedReasoner.interactionIE ∧
            "integer-overflow" ∈ AdvancedReasoner.vulnTypes vs ∧
            "external-call" ∈ AdvancedReasoner.vulnTypes vs) ∨
         (r = AdvancedReasoner.interactionFT ∧
            "front-running" ∈ AdvancedReasoner.vulnTypes vs ∧
            "timestamp" ∈ AdvancedReasoner.vulnTypes vs))) ∧
    (∀ c : AdvancedReasoner.CompoundVuln,
      c ∈ AdvancedReasoner.detect_compound_vulnerabilities vs ↔
        (c ∈ AdvancedReasoner.dangerous_combinations ∧
          ∀ t ∈ c.types, t ∈ AdvancedReasoner.vulnTypes vs)) := by
  constructor
  · intro r
    simp only [AdvancedReasoner.analyze_vulnerability_interactions, List.mem_append,
      mem_ite_singleton, Bool.and_eq_true, contains_iff_mem]
    tauto
  · intro c
    simp only [AdvancedReasoner.detect_compound_vulnerabilities, List.mem_filter,
      List.all_eq_true, contains_iff_mem]

/-- C3 (code bug): on the specified scenario the reentrancy detector
reports `no_state_after_call = true` and no issue, although the claim
(and the specification's scenario) require `false` plus a High finding
citing the call line.  The root cause is that the state-write regex
`(\w+)\s*=\s*` does not match the compound assignment `balance -= x;`
(the hyphen sits between the word run and the equals sign), as the
last conjunct isolates. -/
theorem claim_C3 :
    (ReentrancyAgent.analyze c3Src).checks =
      [("reentrancy_guard_present", false),
       ("checks_effects_interactions", false),
       ("no_state_after_call", true),
       ("uses_pull_payment", false)] ∧
    (ReentrancyAgent.analyze c3Src).issues = [] ∧
    ReentrancyAgent.external_call_line (lineAt (splitLinesL c3Src.toList) 0) = true ∧
    ReentrancyAgent.has_assign "balance -= x;".toList = false := by
  refine ⟨?_, ?_, ?_, ?_⟩ <;> rfl

/-- C4: over any family of keyed detector results, the summary's
`total_checks` is the sum of the check-map sizes and `passed_checks`
counts exactly the check entries whose value is true. -/
theorem claim_C4 (findings : List (String × DetectorResult)) :
    (CoordinatorAgent.calculate_summary findings).total_checks = (checksSizes findings).sum ∧
    (CoordinatorAgent.calculate_summary findings).passed_checks
        = (allCheckEntries findings).countP (fun c => c.2) := by
  have h := summary_foldl_spec findings
    { total_checks := 0, passed_checks := 0, critical_issues := 0,
      high_issues := 0, medium_issues := 0, low_issues := 0 }
  exact ⟨by simpa [CoordinatorAgent.calculate_summary] using h.1,
         by simpa [CoordinatorAgent.calculate_summary] using h.2⟩

/-- C5: a compound-vulnerability record of the fixed table appears in
the detection output exactly when every constituent category is the
type of some vulnerability in the list, and the output depends only on
which type strings are present — hence it is unchanged by permutation
and by duplication. -/
theorem claim_C5 :
    (∀ (vs : List AdvancedReasoner.AVuln) (c : AdvancedReasoner.CompoundVuln),
      c ∈ AdvancedReasoner.dangerous_combinations →
      (c ∈ AdvancedReasoner.detect_compound_vulnerabilities vs ↔
        ∀ t ∈ c.types, t ∈ AdvancedReasoner.vulnTypes vs)) ∧
    (∀ vs vs' : List AdvancedReasoner.AVuln,
      (∀ t, t ∈ AdvancedReasoner.vulnTypes vs ↔ t ∈ AdvancedReasoner.vulnTypes vs') →
      AdvancedReasoner.detect_compound_vulnerabilities vs =
        AdvancedReasoner.detect_compound_vulnerabilities vs') := by
  constructor
  · intro vs c hc
    simp only [AdvancedReasoner.detect_compound_vulnerabilities, List.mem_filter, hc, true_and,
      List.all_eq_true, contains_iff_mem]
  · intro vs vs' h
    unfold AdvancedReasoner.detect_compound_vulnerabilities
    apply List.filter_congr
    intro combo _
    have hct : ∀ t, ((AdvancedReasoner.vulnTypes vs).contains t) =
        ((AdvancedReasoner.vulnTypes vs').contains t) := by
      intro t
      rw [Bool.eq_iff_iff]
      simp [contains_iff_mem, h t]
    simp only [hct]

/-- C5 witness: the first table entry on a concrete list, and
invariance between a list and its duplicated permutation. -/
theorem claim_C5_witness :
    (c5Combo ∈ AdvancedReasoner.detect_compound_vulnerabilities c5V1 ↔
      ∀ t ∈ c5Combo.types, t ∈ AdvancedReasoner.vulnTypes c5V1) ∧
    AdvancedReasoner.detect_compound_vulnerabilities c5V1 =
      AdvancedReasoner.detect_compound_vulnerabilities c5V2 :=
  ⟨claim_C5.1 c5V1 c5Combo (List.mem_cons_self _ _),
   claim_C5.2 c5V1 c5V2 (by intro t; simp [c5V1, c5V2, AdvancedReasoner.vulnTypes]; tauto)⟩

/-- C6 counterexample: for a front-running finding with all contextual
factors 1, the source computes exploit probability 0.75 (its table has
an entry for the category), while the claim's table — five entries and
default 0.50 — yields 0.50. -/
theorem claim_C6_counterexample :
    ((AdvancedReasoner.calculate_exploit_probabilities [c6Vuln] c6Meta).map
      (·.exploit_probability)) = [(3/4 : ℚ)] ∧
    min (claimC6BaseTable "front-running" * 1 * 1 * 1) 1 = (1/2 : ℚ) ∧
    (3/4 : ℚ) ≠ (1/2 : ℚ) := by
  refine ⟨?_, ?_, by norm_num⟩
  · simp [AdvancedReasoner.calculate_exploit_probabilities, AdvancedReasoner.exploitRecord,
      c6Vuln, c6Meta, AdvancedReasoner.base_prob, containsSub, lowerAll,
      AdvancedReasoner.categorize_risk]
    norm_num
  · simp [claimC6BaseTable]
    norm_num

/-- C6 (amended): each record of the reasoner's exploit-probability
output realizes the claim's formula with the full base table of the
source — access-control 0.95, reentrancy 0.85, integer-overflow 0.70,
external-call 0.60, front-running 0.75, timestamp 0.65, dos 0.80,
gas-optimization 0.30, default 0.50 — the three contextual factors,
the cap at 1, and the risk level thresholds 7 / 5 / 3 on probability
times severity weight. -/
theorem claim_C6 (vs : List AdvancedReasoner.AVuln) (m : AdvancedReasoner.ContractMeta) :
    AdvancedReasoner.calculate_exploit_probabilities vs m = vs.map (fun v =>
      let base : ℚ :=
        if v.vtype = "reentrancy" then 0.85
        else if v.vtype = "access-control" then 0.95
        else if v.vtype = "integer-overflow" then 0.70
        else if v.vtype = "external-call" then 0.60
        else if v.vtype = "front-running" then 0.75
        else if v.vtype = "timestamp" then 0.65
        else if v.vtype = "dos" then 0.80
        else if v.vtype = "gas-optimization" then 0.30
        else 0.50
      let cf : ℚ :=
        if containsSub "requires complex attack".toList (lowerAll v.description.toList)
        then 0.6 else 1.0
      let vf : ℚ := if m.is_verified then 0.9 else 1.0
      let valf : ℚ := if m.holds_funds then 1.2 else 1.0
      let p : ℚ := min (base * cf * vf * valf) 1.0
      let w : ℚ :=
        if v.severity = "critical" then 10
        else if v.severity = "high" then 7
        else if v.severity = "medium" then 4
        else if v.severity = "low" then 2
        else 2
      { vulnerability := v.vtype
        severity := v.severity
        exploit_probability := p
        base_probability := base
        complexity := cf
        visibility := vf
        value_at_risk := valf
        risk_level :=
          if p * w ≥ 7 then "EXTREME"
          else if p * w ≥ 5 then "HIGH"
          else if p * w ≥ 3 then "MODERATE"
          else "LOW" }) := rfl

/-- C7 counterexample: an unprotected `withdraw` (a critical-class
keyword) yields a finding of severity `high`, not the `critical` the
claim asserts. -/
theorem claim_C7_counterexample :
    ((AccessControlAgent.analyze c7Src).issues.map fun is_ => (is_.title, is_.severity)) =
      [("Unprotected Privileged Function: withdraw", "high")] ∧
    ("high" : String) ≠ "critical" := by
  refine ⟨rfl, by decide⟩

/-- C7 (amended): a privileged-keyword function declaration with no
authorization modifier in the three-line lookahead window yields a
finding of severity High for critical-class keywords and Medium for
the others, and any tx.origin use yields a High finding. -/
theorem claim_C7 :
    (∀ (src : String) (i : Nat) (kw act sev : String),
      (kw, act, sev) ∈ AccessControlAgent.privileged_keywords →
      i < (splitLinesL src.toList).length →
      AccessControlAgent.funcKeywordSearch kw (lineAt (splitLinesL src.toList) i) = true →
      AccessControlAgent.has_modifier_window (splitLinesL src.toList) i = false →
      ∃ is_ ∈ (AccessControlAgent.analyze src).issues,
        is_.title = "Unprotected Privileged Function: " ++ kw ∧
        is_.severity = (if sev = "critical" then "high" else "medium")) ∧
    (∀ src : String, AccessControlAgent.uses_tx_origin src.toList = true →
      ∃ is_ ∈ (AccessControlAgent.analyze src).issues,
        is_.title = "Dangerous use of tx.origin" ∧ is_.severity = "high") := by
  constructor
  · intro src i kw act sev hkw hi hmatch hnomod
    have hrec : (⟨kw, act, sev, i + 1,
        AccessControlAgent.extract_function (splitLinesL src.toList) i⟩ :
        AccessControlAgent.UnprotectedFunc)
        ∈ AccessControlAgent.find_unprotected_privileged_functions (splitLinesL src.toList) := by
      unfold AccessControlAgent.find_unprotected_privileged_functions
      refine List.mem_flatMap.mpr ⟨i, List.mem_range.mpr hi, ?_⟩
      refine List.mem_filterMap.mpr ⟨(kw, act, sev), hkw, ?_⟩
      simp
      exact ⟨hmatch, hnomod⟩
    refine ⟨AccessControlAgent.mkIssue ⟨kw, act, sev, i + 1,
      AccessControlAgent.extract_function (splitLinesL src.toList) i⟩, ?_, rfl, rfl⟩
    show _ ∈ (AccessControlAgent.analyze src).issues
    simp only [AccessControlAgent.analyze]
    exact List.mem_append_left _ (List.mem_map_of_mem _ hrec)
  · intro src htx
    refine ⟨AccessControlAgent.txOriginIssue, ?_, rfl, rfl⟩
    show _ ∈ (AccessControlAgent.analyze src).issues
    simp only [AccessControlAgent.analyze, htx]
    simp

/-- C7 witness: the amended statement applied to an unprotected `mint`
declaration and to a tx.origin use. -/
theorem claim_C7_witness :
    (∃ is_ ∈ (AccessControlAgent.analyze c7wSrc).issues,
      is_.title = "Unprotected Privileged Function: " ++ "mint" ∧
      is_.severity = (if ("critical" : String) = "critical" then "high" else "medium")) ∧
    (∃ is_ ∈ (AccessControlAgent.analyze c7wSrc2).issues,
      is_.title = "Dangerous use of tx.origin" ∧ is_.severity = "high") :=
  ⟨claim_C7.1 c7wSrc 0 "mint" "mint tokens" "critical" (by decide) (by decide) (by decide)
      (by decide),
   claim_C7.2 c7wSrc2 (by decide)⟩

/-- C8 (code bug): on a block whose closing brace sits on a later line
than any opening brace, `_extract_block` runs past the depth-zero line
(its stop test additionally demands an opening brace on that very
line) and returns the trailing line too, while the sibling extractor
`_extract_function` stops exactly at depth zero as the claim states. -/
theorem claim_C8 :
    IntegerOverflowAgent.extract_block c8Lines 0 = "unchecked \x7b\nx = 1;\n\x7d\ny = 2;" ∧
    AccessControlAgent.extract_function c8Lines 0 = "unchecked \x7b\nx = 1;\n\x7d" ∧
    IntegerOverflowAgent.extract_block c8Lines 0 ≠
      AccessControlAgent.extract_function c8Lines 0 := by
  refine ⟨rfl, rfl, ?_⟩
  decide

/-- C9: every detector's `analyze` is a total function (all fallible
sub-operations of the source are guarded, so no exception can reach
the caller) whose result always carries the detector's fixed
check-name set together with the issue and fix lists; on the empty
(degenerate) input each check takes its computed safe value and both
lists are empty. -/
theorem claim_C9 :
    (∀ src : String, (ReentrancyAgent.analyze src).checks.map Prod.fst =
      ["reentrancy_guard_present", "checks_effects_interactions",
       "no_state_after_call", "uses_pull_payment"]) ∧
    (∀ src : String, (AccessControlAgent.analyze src).checks.map Prod.fst =
      ["has_ownership_mechanism", "has_role_based_access", "all_privileged_protected",
       "proper_modifier_usage", "no_tx_origin"]) ∧
    (∀ src : String, (IntegerOverflowAgent.analyze src).checks.map Prod.fst =
      ["solidity_version_safe", "uses_safe_math", "appropriate_unchecked_usage",
       "arithmetic_operations_safe", "no_precision_loss"]) ∧
    (∀ src : String, (ExternalCallsAgent.analyze src).checks.map Prod.fst =
      ["low_level_calls_checked", "uses_safe_transfer", "safe_delegatecall_usage",
       "uses_pull_payment_pattern", "has_gas_limits"]) ∧
    (∀ src : String, (GasOptimizationAgent.analyze src).checks.map Prod.fst =
      ["optimal_data_location", "efficient_storage_packing", "optimized_loops",
       "cached_storage_reads", "uses_constants"]) ∧
    ReentrancyAgent.analyze "" =
      { checks := [("reentrancy_guard_present", false), ("checks_effects_interactions", false),
                   ("no_state_after_call", true), ("uses_pull_payment", false)],
        issues := [], code_fixes := [] } ∧
    AccessControlAgent.analyze "" =
      { checks := [("has_ownership_mechanism", false), ("has_role_based_access", false),
                   ("all_privileged_protected", true), ("proper_modifier_usage", false),
                   ("no_tx_origin", true)],
        issues := [], code_fixes := [] } ∧
    IntegerOverflowAgent.analyze "" =
      { checks := [("solidity_version_safe", false), ("uses_safe_math", false),
                   ("appropriate_unchecked_usage", true), ("arithmetic_operations_safe", false),
                   ("no_precision_loss", true)],
        issues := [], code_fixes := [] } ∧
    ExternalCallsAgent.analyze "" =
      { checks := [("low_level_calls_checked", true), ("uses_safe_transfer", false),
                   ("safe_delegatecall_usage", true), ("uses_pull_payment_pattern", false),
                   ("has_gas_limits", false)],
        issues := [], code_fixes := [] } ∧
    GasOptimizationAgent.analyze "" =
      { checks := [("optimal_data_location", true), ("efficient_storage_packing", true),
                   ("optimized_loops", true), ("cached_storage_reads", true),
                   ("uses_constants", true)],
        issues := [], code_fixes := [] } := by
  refine ⟨fun src => rfl, fun src => rfl, fun src => rfl, fun src => rfl, fun src => rfl,
    ?_, ?_, ?_, ?_, ?_⟩ <;> rfl

/-- C10: the report's risk score is `round2` of the capped tenth of
the severity-weight total (critical 10, high 7, medium 4, low 2,
info 1, unrecognized 1), lies in the interval [0, 10], is a pure
function of the finding multiset, and never decreases when a finding
is appended. -/
theorem claim_C10 (vs : List MeTTaReasoner.RVuln) :
    MeTTaReasoner.calculate_risk_score vs
      = MeTTaReasoner.round2 (min ((sumWeights vs : ℚ) / 10) 10) ∧
    0 ≤ MeTTaReasoner.calculate_risk_score vs ∧
    MeTTaReasoner.calculate_risk_score vs ≤ 10 ∧
    (∀ vs', vs.Perm vs' →
      MeTTaReasoner.calculate_risk_score vs = MeTTaReasoner.calculate_risk_score vs') ∧
    (∀ v, MeTTaReasoner.calculate_risk_score vs ≤
      MeTTaReasoner.calculate_risk_score (vs ++ [v])) := by
  refine ⟨rfl, ?_, ?_, ?_, ?_⟩
  · rw [risk_score_eq]; positivity
  · rw [risk_score_eq, div_le_iff₀ (by norm_num)]
    have h : min (sumWeights vs) 100 ≤ 100 := Nat.min_le_right _ _
    exact_mod_cast by linarith [h]
  · intro vs' hp
    rw [risk_score_eq, risk_score_eq]
    have h : sumWeights vs = sumWeights vs' := (hp.map _).sum_eq
    rw [h]
  · intro v
    rw [risk_score_eq, risk_score_eq]
    have h1 : sumWeights vs ≤ sumWeights (vs ++ [v]) := by
      simp [sumWeights]
    have h2 : min (sumWeights vs) 100 ≤ min (sumWeights (vs ++ [v])) 100 :=
      min_le_min h1 (le_refl 100)
    have h3 : ((min (sumWeights vs) 100 : ℕ) : ℚ) ≤
        ((min (sumWeights (vs ++ [v])) 100 : ℕ) : ℚ) := by exact_mod_cast h2
    linarith [h3]

/-- C10 witness: equality on a concrete permutation and monotonicity
on a concrete append. -/
theorem claim_C10_witness :
    MeTTaReasoner.calculate_risk_score c10V1 = MeTTaReasoner.calculate_risk_score c10V2 ∧
    MeTTaReasoner.calculate_risk_score c10V1 ≤
      MeTTaReasoner.calculate_risk_score (c10V1 ++ [c10v3]) :=
  ⟨(claim_C10 c10V1).2.2.2.1 c10V2 (List.Perm.swap _ _ _),
   (claim_C10 c10V1).2.2.2.2 c10v3⟩

end Markov
